import Mathlib

/-!
Verification development for the Stiebel Eltron ISG HTTP scraping client
(`custom_components/stiebel_eltron_http`).  The Python source is embedded
shallowly: pure helpers become Lean functions, Python exceptions become an
explicit `Except` value, Python `float` results are modelled as exact
rationals (`ℚ`), and the HTML tag tree produced by BeautifulSoup is
modelled by the accessors the scrapper actually uses (tables, rows, cells,
cell text with `strip=True`, images and their `src` attributes, language
divs, and the full page text).

Python string primitives (`str.replace`, `str.strip`, substring `in`) are
implemented here over `List Char` by structural recursion so that every
concrete scenario evaluates inside the kernel.
-/

deriving instance DecidableEq for Except

/-- Kinds of Python exceptions that the scrapper can raise or handle.
`scrapingClientError` is `StiebelEltronScrapingClientError`,
`scrapingClientCommError` is `StiebelEltronScrapingClientCommunicationError`,
`scrapingClientAuthError` is `StiebelEltronScrapingClientAuthenticationError`;
`aiohttpClientResponseError` is `aiohttp.ClientResponseError` (raised by
`response.raise_for_status()`), `aiohttpClientError` covers the remaining
`aiohttp.ClientError` cases plus `socket.gaierror`. -/
inductive ExcKind where
  | valueError
  | indexError
  | scrapingClientError
  | scrapingClientCommError
  | scrapingClientAuthError
  | aiohttpClientResponseError
  | aiohttpClientError
  | timeoutError
  | otherExc
  deriving DecidableEq, Repr

/-- A raised Python exception: its class, message, and (for
`raise ... from exc`) the class of the attached cause. -/
structure PyExc where
  kind : ExcKind
  msg : String
  cause : Option ExcKind
  deriving DecidableEq, Repr

/-- The three classes of the `StiebelEltronScrapingClientError` hierarchy
defined in `scrapper.py` (the base class and its two subclasses). -/
def isScrapingClientError (k : ExcKind) : Bool :=
  match k with
  | .scrapingClientError => true
  | .scrapingClientCommError => true
  | .scrapingClientAuthError => true
  | _ => false

/-- Leading-match test for character lists. -/
def startsWithCs : List Char → List Char → Bool
  | _, [] => true
  | [], _ :: _ => false
  | c :: cs, p :: ps => c == p && startsWithCs cs ps

/-- Occurrence test for a non-empty pattern in a character list. -/
def containsCs : List Char → List Char → Bool
  | [], _ => false
  | c :: cs, pat => startsWithCs (c :: cs) pat || containsCs cs pat

/-- Python `needle in haystack` substring test, for non-empty needles. -/
def strContainsSub (hay needle : String) : Bool :=
  containsCs hay.toList needle.toList

/-- One fuelled step list for Python `str.replace`: scan left to right,
replacing each non-overlapping occurrence of `old` (non-empty) by `new`.
The fuel is an upper bound on the scan steps (the haystack length). -/
def replaceGo (old new : List Char) : Nat → List Char → List Char
  | _, [] => []
  | 0, s => s
  | fuel + 1, c :: cs =>
    if startsWithCs (c :: cs) old then
      new ++ replaceGo old new fuel ((c :: cs).drop old.length)
    else
      c :: replaceGo old new fuel cs

/-- Python `s.replace(old, new)` for a non-empty `old`. -/
def pyReplace (s old new : String) : String :=
  ⟨replaceGo old.toList new.toList s.toList.length s.toList⟩

/-- Python `s.strip()`: drop whitespace from both ends. -/
def pyStrip (s : String) : String :=
  ⟨((s.toList.dropWhile Char.isWhitespace).reverse.dropWhile
      Char.isWhitespace).reverse⟩

/-- Numeric value of a list of decimal digit characters. -/
def digitsToNat (cs : List Char) : Nat :=
  cs.foldl (fun a c => a * 10 + (c.toNat - '0'.toNat)) 0

/-- Exponent part of a Python float literal: optional sign then at least
one digit, consuming the whole remaining input. -/
def parseExpPart (cs : List Char) : Option Int :=
  let (sign, rest) :=
    match cs with
    | '+' :: r => ((1 : Int), r)
    | '-' :: r => ((-1 : Int), r)
    | r => ((1 : Int), r)
  let (ds, rest2) := rest.span Char.isDigit
  if ds.isEmpty then none
  else if rest2.isEmpty then some (sign * (digitsToNat ds : Int))
  else none

/-- The exact rational `sign * mant / 10 ^ fracLen * 10 ^ ex`, assembled
with a single `mkRat` so that it evaluates by kernel reduction. -/
def pyFloatVal (sign : Int) (mant : Nat) (fracLen : Nat) (ex : Int) : ℚ :=
  if 0 ≤ ex then
    mkRat (sign * (mant : Int) * (10 : Int) ^ ex.toNat) ((10 : Nat) ^ fracLen)
  else
    mkRat (sign * (mant : Int)) ((10 : Nat) ^ (fracLen + (-ex).toNat))

/-- Unsigned part of a Python float literal:
`digits [. digits] [e exp]` or `. digits [e exp]`, with at least one
digit overall, as an exact rational. -/
def parseUnsignedFloat (sign : Int) (cs : List Char) : Option ℚ :=
  let (ip, rest) := cs.span Char.isDigit
  match rest with
  | '.' :: rest2 =>
    let (fp, rest3) := rest2.span Char.isDigit
    if ip.isEmpty && fp.isEmpty then none
    else
      match rest3 with
      | [] => some (pyFloatVal sign (digitsToNat (ip ++ fp)) fp.length 0)
      | e :: rest4 =>
        if e == 'e' || e == 'E' then
          (parseExpPart rest4).map
            (fun ex => pyFloatVal sign (digitsToNat (ip ++ fp)) fp.length ex)
        else none
  | [] => if ip.isEmpty then none else some (pyFloatVal sign (digitsToNat ip) 0 0)
  | e :: rest4 =>
    if (e == 'e' || e == 'E') && !ip.isEmpty then
      (parseExpPart rest4).map (fun ex => pyFloatVal sign (digitsToNat ip) 0 ex)
    else none

/-- Rational-valued abstraction of Python's `float(str)`: surrounding
whitespace is stripped, an optional sign precedes a decimal literal with
optional fraction and exponent.  Values are exact rationals rather than
IEEE doubles; the special forms `inf`/`nan` and digit-group underscores
lie outside the modelled lexical space.  `none` models `float` raising
`ValueError`. -/
def pyFloat (s : String) : Option ℚ :=
  match (pyStrip s).toList with
  | '+' :: rest => parseUnsignedFloat 1 rest
  | '-' :: rest => parseUnsignedFloat (-1) rest
  | cs => parseUnsignedFloat 1 cs

/-- Python `float(str)` as a fallible call: on a malformed literal it
raises `ValueError`. -/
def pyFloatE (s : String) : Except PyExc ℚ :=
  match pyFloat s with
  | some q => .ok q
  | none =>
    .error ⟨.valueError, "could not convert string to float: " ++ s, none⟩

/-- Multiplication of a rational by 1000, phrased through `mkRat` so that
it evaluates by kernel reduction; `ratMul1000_eq` shows it is ordinary
multiplication. -/
def ratMul1000 (q : ℚ) : ℚ := mkRat (q.num * 1000) q.den

theorem ratMul1000_eq (q : ℚ) : ratMul1000 q = q * 1000 := by
  rw [ratMul1000, Rat.mkRat_eq_div]
  push_cast
  rw [mul_comm (q.num : ℚ) 1000, mul_div_assoc, Rat.num_div_den]
  ring

/-- `_convert_temperature` from `scrapper.py`: replace `,` by `.`, drop
`°C`, strip, then `float(...)`; the `except ValueError` branch returns
`None`.  The result is `Except` so that an uncaught exception (were one
possible) would be visible. -/
def _convert_temperature (value : String) : Except PyExc (Option ℚ) :=
  let v := pyStrip (pyReplace (pyReplace value "," ".") "°C" "")
  match pyFloatE v with
  | .ok f => .ok (some f)
  | .error e =>
    match e.kind with
    | .valueError => .ok none
    | _ => .error e

/-- `_convert_percentage` from `scrapper.py`: replace `,` by `.`, drop
`%`, strip, then `float(...)`; `ValueError` is caught and yields `None`. -/
def _convert_percentage (value : String) : Except PyExc (Option ℚ) :=
  let v := pyStrip (pyReplace (pyReplace value "," ".") "%" "")
  match pyFloatE v with
  | .ok f => .ok (some f)
  | .error e =>
    match e.kind with
    | .valueError => .ok none
    | _ => .error e

/-- `_convert_number` from `scrapper.py`: replace `,` by `.`, strip, then
`float(...)`; `ValueError` is caught and yields `None`. -/
def _convert_number (value : String) : Except PyExc (Option ℚ) :=
  let v := pyStrip (pyReplace value "," ".")
  match pyFloatE v with
  | .ok f => .ok (some f)
  | .error e =>
    match e.kind with
    | .valueError => .ok none
    | _ => .error e

/-- The cleanup `_convert_energy` applies before parsing: replace `,` by
`.`, drop the `MWh` and `KWh` unit texts, strip. -/
def energyClean (value : String) : String :=
  pyStrip (pyReplace (pyReplace (pyReplace value "," ".") "MWh" "") "KWh" "")

/-- `_convert_energy` from `scrapper.py`: require the case-sensitive unit
substring `KWh` or `MWh` (else `None`), clean the text, `float(...)`,
multiply by 1000 when the unit was `MWh`; `ValueError` is caught and
yields `None`. -/
def _convert_energy (value : String) : Except PyExc (Option ℚ) :=
  let is_kwh := strContainsSub value "KWh"
  let is_mwh := strContainsSub value "MWh"
  if !(is_kwh || is_mwh) then .ok none
  else
    match pyFloatE (energyClean value) with
    | .ok f => .ok (some (if is_mwh then ratMul1000 f else f))
    | .error e =>
      match e.kind with
      | .valueError => .ok none
      | _ => .error e

/-- A value of the `FIELDS_I18N` mapping in `const.py`: either an
implemented label dictionary, or a plain string placeholder (the
`"TODO"` entries for languages without translated labels). -/
inductive LangEntry where
  | dict (m : List (String × String))
  | placeholder (s : String)
  deriving DecidableEq, Repr

/-- The `ENGLISH` label dictionary from `const.py`. -/
def englishFields : List (String × String) :=
  [("MAJOR_VERSION", "Major version"),
   ("MINOR_VERSION", "Minor version"),
   ("REVISION", "Revision"),
   ("ACTUAL TEMPERATURE 1", "ACTUAL TEMPERATURE 1"),
   ("RELATIVE HUMIDITY 1", "RELATIVE HUMIDITY 1"),
   ("OUTSIDE TEMPERATURE", "OUTSIDE TEMPERATURE"),
   ("AMOUNT OF HEAT", "AMOUNT OF HEAT"),
   ("POWER CONSUMPTION", "POWER CONSUMPTION"),
   ("VD HEATING DAY", "VD HEATING DAY"),
   ("VD HEATING TOTAL", "VD HEATING TOTAL"),
   ("ACTUAL TEMPERATURE HK 1", "ACTUAL TEMPERATURE HK 1"),
   ("SET TEMPERATURE HK 1", "SET TEMPERATURE HK 1"),
   ("STARTS", "STARTS"),
   ("COMPRESSOR", "COMPRESSOR"),
   ("HEAT PUMP STATUS", "HEAT PUMP STATUS"),
   ("AUXILIARY HEATER", "AUXILIARY HEATER"),
   ("BOOSTER HEATER STAGE 1", "BOOSTER HEATER STAGE 1"),
   ("BOOSTER HEATER STAGE 2", "BOOSTER HEATER STAGE 2"),
   ("OPERATING MODE", "OPERATING MODE"),
   ("DEFROST", "DEFROST")]

/-- The `DEUTSCH` label dictionary from `const.py`. -/
def deutschFields : List (String × String) :=
  [("MAJOR_VERSION", "Hauptversionsnummer"),
   ("MINOR_VERSION", "Nebenversionsnummer"),
   ("REVISION", "Revisionsnummer"),
   ("ACTUAL TEMPERATURE 1", "ISTTEMPERATUR 1"),
   ("RELATIVE HUMIDITY 1", "RAUMFEUCHTE 1"),
   ("OUTSIDE TEMPERATURE", "AUSSENTEMPERATUR"),
   ("AMOUNT OF HEAT", "WÄRMEMENGE"),
   ("POWER CONSUMPTION", "LEISTUNGSAUFNAHME"),
   ("VD HEATING DAY", "VD HEIZEN TAG"),
   ("VD HEATING TOTAL", "VD HEIZEN SUMME"),
   ("ACTUAL TEMPERATURE HK 1", "ISTTEMPERATUR HK 1"),
   ("SET TEMPERATURE HK 1", "SOLLTEMPERATUR HK 1"),
   ("STARTS", "STARTS"),
   ("COMPRESSOR", "VERDICHTER"),
   ("HEAT PUMP STATUS", "STATUS WÄRMEPUMPE"),
   ("AUXILIARY HEATER", "BEGLEITHEIZUNG"),
   ("BOOSTER HEATER STAGE 1", "NHZ STUFE 1"),
   ("BOOSTER HEATER STAGE 2", "NHZ STUFE 2"),
   ("OPERATING MODE", "BETRIEBSSTATUS"),
   ("DEFROST", "ABTAUEN")]

/-- The `FIELDS_I18N` mapping from `const.py`: two implemented languages
and ten `"TODO"` placeholders. -/
def FIELDS_I18N : List (String × LangEntry) :=
  [("ENGLISH", .dict englishFields),
   ("DEUTSCH", .dict deutschFields),
   ("FRANÇAIS", .placeholder "TODO"),
   ("NEDERLANDS", .placeholder "TODO"),
   ("ITALIANO", .placeholder "TODO"),
   ("SVENSKA", .placeholder "TODO"),
   ("POLSKI", .placeholder "TODO"),
   ("ČEŠTINA", .placeholder "TODO"),
   ("MAGYAR", .placeholder "TODO"),
   ("ESPAÑOL", .placeholder "TODO"),
   ("SUOMI", .placeholder "TODO"),
   ("DANSK", .placeholder "TODO")]

/-- Python `dict.get` on an association list. -/
def dictGetStr (m : List (String × String)) (k : String) : Option String :=
  match m with
  | [] => none
  | (k', v) :: rest => if k' = k then some v else dictGetStr rest k

/-- Python `dict.get` on the `FIELDS_I18N` mapping. -/
def i18nGet (m : List (String × LangEntry)) (k : String) : Option LangEntry :=
  match m with
  | [] => none
  | (k', v) :: rest => if k' = k then some v else i18nGet rest k

/-- `_get_field_i18n` from `scrapper.py`: return the label when the
language entry is an implemented `dict` and holds a truthy value for the
field key; in every other case raise
`ValueError("Unsupported language for i18n: <language>")`. -/
def _get_field_i18n (field_key language : String) : Except PyExc String :=
  let fallback : Except PyExc String :=
    .error ⟨.valueError, "Unsupported language for i18n: " ++ language, none⟩
  match i18nGet FIELDS_I18N language with
  | some (.dict m) =>
    match dictGetStr m field_key with
    | some r => if r ≠ "" then .ok r else fallback
    | none => fallback
  | _ => fallback

/-- The tag of a table cell: the scrapper distinguishes header cells
(`th`) from data cells (`td`) when it reads a table's first row. -/
inductive CTag where
  | th
  | td
  deriving DecidableEq, Repr

/-- An `img` element: the scrapper only reads its `src` attribute
(`icon.get("src")`, which may be absent). -/
structure Img where
  src : Option String
  deriving DecidableEq, Repr

/-- A table cell (`td` or `th`) as the scrapper reads it: its tag, its
`get_text(strip=True)` text, and its embedded `img` descendants in
document order (`cell.find("img")` reads the first). -/
structure Cell where
  tag : CTag
  text : String
  imgs : List Img
  deriving DecidableEq, Repr

/-- A table row: its cells (`row.find_all(["td", "th"])`) in document
order. -/
structure TRow where
  cells : List Cell
  deriving DecidableEq, Repr

/-- A table: its rows (`table.find_all("tr")`) in document order. -/
structure HTable where
  rows : List TRow
  deriving DecidableEq, Repr

/-- A parsed page as the scrapper reads it through BeautifulSoup: the
`get_text(strip=True)` texts of the `div.eingestelle_sprache` language
markers in document order, the tables in document order, and the page's
full visible text (`soup.get_text()`). -/
structure Page where
  langDivTexts : List String
  tables : List HTable
  fullText : String
  deriving DecidableEq, Repr

/-- `soup.find_all("tr")`: every table row on the page in document
order. -/
def Page.allRows (p : Page) : List TRow :=
  p.tables.bind (·.rows)

/-- `_extract_language` from `scrapper.py`: default to `"ENGLISH"` when
no language div is present or the first one has empty text, otherwise
return the first div's text verbatim. -/
def _extract_language (p : Page) : String :=
  match p.langDivTexts with
  | [] => "ENGLISH"
  | t :: _ => if t = "" then "ENGLISH" else t

/-- List indexing that raises Python's `IndexError` when out of range. -/
def listAt {α : Type} (l : List α) (i : Nat) : Except PyExc α :=
  match l.get? i with
  | some a => .ok a
  | none => .error ⟨.indexError, "list index out of range", none⟩

/-- The on-icon marker `ICON_ON_SRC` from `const.py`. -/
def ICON_ON_SRC : String := "ste-symbol_an-"

/-- Values stored in an extraction result dict: an `Optional[float]`
from a converter, a boolean status, or a plain string. -/
inductive Val where
  | onum (q : Option ℚ)
  | obool (b : Bool)
  | ostr (s : String)
  deriving DecidableEq, Repr

/-- A Python dict keyed by strings, as an insertion-ordered association
list with unique keys. -/
def Dict : Type := List (String × Val)

deriving instance DecidableEq, Repr for Dict

/-- Python `d[k] = v`: overwrite in place when the key is present,
append otherwise. -/
def dictSet (d : Dict) (k : String) (v : Val) : Dict :=
  match d with
  | [] => [(k, v)]
  | (k', v') :: rest =>
    if k' = k then (k', v) :: rest else (k', v') :: dictSet rest k v

/-- Python `d.get(k)` on a result dict. -/
def dictGet (d : Dict) (k : String) : Option Val :=
  match d with
  | [] => none
  | (k', v) :: rest => if k' = k then some v else dictGet rest k

/-- Python `d.update(other)`: set every key of `other` in order. -/
def dictUpdate (d other : Dict) : Dict :=
  other.foldl (fun acc kv => dictSet acc kv.1 kv.2) d

/-- The keys of a result dict. -/
def dictKeys (d : Dict) : List String := d.map Prod.fst

/-- Row scan of `_extract_energy` in `scrapper.py`: skip rows without at
least two cell texts, convert the second cell of the first row whose
first cell text equals the expected header, `None` when no row
matches. -/
def extract_energy_rows (hdr : String) : List TRow → Except PyExc (Option ℚ)
  | [] => .ok none
  | r :: rs =>
    match r.cells.map (·.text) with
    | t0 :: t1 :: _ =>
      if t0 = hdr then _convert_energy t1 else extract_energy_rows hdr rs
    | _ => extract_energy_rows hdr rs

/-- `_extract_energy` from `scrapper.py`. -/
def _extract_energy (t : HTable) (expected_header : String) :
    Except PyExc (Option ℚ) :=
  extract_energy_rows expected_header t.rows

/-- Row scan of `_extract_number` in `scrapper.py`, analogous to
`extract_energy_rows`. -/
def extract_number_rows (hdr : String) : List TRow → Except PyExc (Option ℚ)
  | [] => .ok none
  | r :: rs =>
    match r.cells.map (·.text) with
    | t0 :: t1 :: _ =>
      if t0 = hdr then _convert_number t1 else extract_number_rows hdr rs
    | _ => extract_number_rows hdr rs

/-- `_extract_number` from `scrapper.py`. -/
def _extract_number (t : HTable) (expected_header : String) :
    Except PyExc (Option ℚ) :=
  extract_number_rows expected_header t.rows

/-- Row scan of `_extract_boolean` in `scrapper.py`: skip rows with
fewer than two cells, rows whose first cell text differs from the
header, rows whose second cell has no `img`, and rows whose icon has no
(or an empty) `src`; at the first remaining row, report whether the
`src` contains the on-marker.  `False` when the scan exhausts the
table. -/
def extract_boolean_rows (hdr : String) : List TRow → Bool
  | [] => false
  | r :: rs =>
    match r.cells with
    | c0 :: c1 :: _ =>
      if c0.text ≠ hdr then extract_boolean_rows hdr rs
      else
        match c1.imgs.head? with
        | none => extract_boolean_rows hdr rs
        | some icon =>
          match icon.src with
          | none => extract_boolean_rows hdr rs
          | some s =>
            if s = "" then extract_boolean_rows hdr rs
            else strContainsSub s ICON_ON_SRC
    | _ => extract_boolean_rows hdr rs

/-- `_extract_boolean` from `scrapper.py`. -/
def _extract_boolean (t : HTable) (expected_header : String) : Bool :=
  extract_boolean_rows expected_header t.rows

/-- Python's `f"{x}"` on an `Optional[str]`: `None` renders as the
literal text `"None"`. -/
def pyShowOptStr (o : Option String) : String :=
  match o with
  | some s => s
  | none => "None"

/-- Row scan of `_extract_version` in `scrapper.py`: accumulate the
major/minor/revision cell texts over all rows with at least two cell
texts, looking each localized label up on every comparison. -/
def extract_version_rows (language : String)
    (acc : Option String × Option String × Option String) :
    List TRow → Except PyExc (Option String × Option String × Option String)
  | [] => .ok acc
  | r :: rs =>
    match r.cells.map (·.text) with
    | t0 :: t1 :: _ => do
      let lMajor ← _get_field_i18n "MAJOR_VERSION" language
      if t0 = lMajor then
        extract_version_rows language (some t1, acc.2.1, acc.2.2) rs
      else do
        let lMinor ← _get_field_i18n "MINOR_VERSION" language
        if t0 = lMinor then
          extract_version_rows language (acc.1, some t1, acc.2.2) rs
        else do
          let lRev ← _get_field_i18n "REVISION" language
          if t0 = lRev then
            extract_version_rows language (acc.1, acc.2.1, some t1) rs
          else
            extract_version_rows language acc rs
    | _ => extract_version_rows language acc rs

/-- `_extract_version` from `scrapper.py`: the f-string
`"{major}.{minor}.{revision}"` over the accumulated components. -/
def _extract_version (t : HTable) (language : String) : Except PyExc String := do
  let acc ← extract_version_rows language (none, none, none) t.rows
  pure (pyShowOptStr acc.1 ++ "." ++ pyShowOptStr acc.2.1 ++ "." ++
    pyShowOptStr acc.2.2)

/-- Sensor and device keys from `const.py`, plus Home Assistant's
`ATTR_SW_VERSION`. -/
def ROOM_TEMPERATURE_KEY : String := "room_temperature"

def ROOM_HUMIDITY_KEY : String := "room_relative_humidity"

def OUTSIDE_TEMPERATURE_KEY : String := "outside_temperature"

def TOTAL_HEATING_KEY : String := "total_heating_energy"

def TOTAL_POWER_CONSUMPTION_KEY : String := "total_power_consumption"

def HEATING_KEY : String := "heating_energy"

def POWER_CONSUMPTION_KEY : String := "power_consumption"

def FLOW_TEMPERATURE_KEY : String := "flow_temperature"

def TARGET_FLOW_TEMPERATURE_KEY : String := "target_flow_temperature"

def COMPRESSOR_STARTS_KEY : String := "compressor_starts"

def COMPRESSOR_STATUS_KEY : String := "compressor_status"

def AUXILIARY_HEATER_STATUS_KEY : String := "auxiliary_heater_status"

def BOOSTER_HEATER_1_STATUS_KEY : String := "booster_heater_1_status"

def BOOSTER_HEATER_2_STATUS_KEY : String := "booster_heater_2_status"

def DEFROST_STATUS_KEY : String := "defrost_status"

def MAC_ADDRESS_KEY : String := "mac_address"

def ATTR_SW_VERSION : String := "sw_version"

/-- URL subpaths from `const.py`. -/
def INFO_SYSTEM_PATH : String := "/?s=1,0"

def INFO_HEATPUMP_PATH : String := "/?s=1,1"

def DIAGNOSIS_SYSTEM_STATUS_PATH : String := "/?s=2,0"

def DIAGNOSIS_HEAT_PUMP_STATUS_PATH : String := "/?s=2,2"

def DIAGNOSIS_SYSTEM_PATH : String := "/?s=2,7"

def PROFILE_NETWORK_PATH : String := "/?s=5,0"

/-- One row of the `_extract_info_system` loop: rows with no cells are
skipped; otherwise the first cell text is compared against the five
localized labels in source order and the matching branch converts the
second cell text (`curr_row_elems[1]`, an `IndexError` when absent). -/
def info_system_row (language : String) (d : Dict) (r : TRow) :
    Except PyExc Dict :=
  match r.cells.map (·.text) with
  | [] => .ok d
  | t0 :: rest => do
    let lRoom ← _get_field_i18n "ACTUAL TEMPERATURE 1" language
    if t0 = lRoom then do
      let t1 ← listAt (t0 :: rest) 1
      let v ← _convert_temperature t1
      pure (dictSet d ROOM_TEMPERATURE_KEY (.onum v))
    else do
      let lOut ← _get_field_i18n "OUTSIDE TEMPERATURE" language
      if t0 = lOut then do
        let t1 ← listAt (t0 :: rest) 1
        let v ← _convert_temperature t1
        pure (dictSet d OUTSIDE_TEMPERATURE_KEY (.onum v))
      else do
        let lHum ← _get_field_i18n "RELATIVE HUMIDITY 1" language
        if t0 = lHum then do
          let t1 ← listAt (t0 :: rest) 1
          let v ← _convert_percentage t1
          pure (dictSet d ROOM_HUMIDITY_KEY (.onum v))
        else do
          let lFlow ← _get_field_i18n "ACTUAL TEMPERATURE HK 1" language
          if t0 = lFlow then do
            let t1 ← listAt (t0 :: rest) 1
            let v ← _convert_temperature t1
            pure (dictSet d FLOW_TEMPERATURE_KEY (.onum v))
          else do
            let lTarget ← _get_field_i18n "SET TEMPERATURE HK 1" language
            if t0 = lTarget then do
              let t1 ← listAt (t0 :: rest) 1
              let v ← _convert_temperature t1
              pure (dictSet d TARGET_FLOW_TEMPERATURE_KEY (.onum v))
            else
              pure d

/-- The `for curr_row in soup.find_all("tr")` loop of
`_extract_info_system`. -/
def info_system_rows (language : String) (d : Dict) :
    List TRow → Except PyExc Dict
  | [] => .ok d
  | r :: rs => do
    let d' ← info_system_row language d r
    info_system_rows language d' rs

/-- `_extract_info_system` from `scrapper.py`. -/
def _extract_info_system (p : Page) : Except PyExc Dict :=
  info_system_rows (_extract_language p) [] p.allRows

/-- One table of the `_extract_info_heatpump` loop: read the `th` texts
of the table's first row (`IndexError` when the table has no rows or the
first row has no `th`), then dispatch on the first header. -/
def info_heatpump_table (language : String) (d : Dict) (t : HTable) :
    Except PyExc Dict := do
  let row0 ← listAt t.rows 0
  let headers := (row0.cells.filter (fun c => c.tag = CTag.th)).map (·.text)
  let h0 ← listAt headers 0
  let lAmount ← _get_field_i18n "AMOUNT OF HEAT" language
  if h0 = lAmount then do
    let lDay ← _get_field_i18n "VD HEATING DAY" language
    let v1 ← _extract_energy t lDay
    let d1 := dictSet d HEATING_KEY (.onum v1)
    let lTotal ← _get_field_i18n "VD HEATING TOTAL" language
    let v2 ← _extract_energy t lTotal
    pure (dictSet d1 TOTAL_HEATING_KEY (.onum v2))
  else do
    let lPower ← _get_field_i18n "POWER CONSUMPTION" language
    if h0 = lPower then do
      let lDay ← _get_field_i18n "VD HEATING DAY" language
      let v1 ← _extract_energy t lDay
      let d1 := dictSet d POWER_CONSUMPTION_KEY (.onum v1)
      let lTotal ← _get_field_i18n "VD HEATING TOTAL" language
      let v2 ← _extract_energy t lTotal
      pure (dictSet d1 TOTAL_POWER_CONSUMPTION_KEY (.onum v2))
    else do
      let lStarts ← _get_field_i18n "STARTS" language
      if h0 = lStarts then do
        let lComp ← _get_field_i18n "COMPRESSOR" language
        let v ← _extract_number t lComp
        pure (dictSet d COMPRESSOR_STARTS_KEY (.onum v))
      else
        pure d

/-- The `for curr_table in all_tables` loop of `_extract_info_heatpump`. -/
def info_heatpump_tables (language : String) (d : Dict) :
    List HTable → Except PyExc Dict
  | [] => .ok d
  | t :: ts => do
    let d' ← info_heatpump_table language d t
    info_heatpump_tables language d' ts

/-- `_extract_info_heatpump` from `scrapper.py`. -/
def _extract_info_heatpump (p : Page) : Except PyExc Dict :=
  info_heatpump_tables (_extract_language p) [] p.tables

/-- One table of the `_extract_diagnosis_system_status` loop. -/
def diag_system_status_table (language : String) (d : Dict) (t : HTable) :
    Except PyExc Dict := do
  let row0 ← listAt t.rows 0
  let headers := (row0.cells.filter (fun c => c.tag = CTag.th)).map (·.text)
  let h0 ← listAt headers 0
  let lMode ← _get_field_i18n "OPERATING MODE" language
  if h0 = lMode then do
    let lDefrost ← _get_field_i18n "DEFROST" language
    pure (dictSet d DEFROST_STATUS_KEY (.obool (_extract_boolean t lDefrost)))
  else
    pure d

/-- The table loop of `_extract_diagnosis_system_status`. -/
def diag_system_status_tables (language : String) (d : Dict) :
    List HTable → Except PyExc Dict
  | [] => .ok d
  | t :: ts => do
    let d' ← diag_system_status_table language d t
    diag_system_status_tables language d' ts

/-- `_extract_diagnosis_system_status` from `scrapper.py`: the result is
pre-seeded with `defrost_status: False`. -/
def _extract_diagnosis_system_status (p : Page) : Except PyExc Dict :=
  diag_system_status_tables (_extract_language p)
    [(DEFROST_STATUS_KEY, .obool false)] p.tables

/-- One table of the `_extract_diagnosis_heat_pump_status` loop. -/
def diag_heat_pump_status_table (language : String) (d : Dict) (t : HTable) :
    Except PyExc Dict := do
  let row0 ← listAt t.rows 0
  let headers := (row0.cells.filter (fun c => c.tag = CTag.th)).map (·.text)
  let h0 ← listAt headers 0
  let lStatus ← _get_field_i18n "HEAT PUMP STATUS" language
  if h0 = lStatus then do
    let lComp ← _get_field_i18n "COMPRESSOR" language
    let d1 := dictSet d COMPRESSOR_STATUS_KEY (.obool (_extract_boolean t lComp))
    let lAux ← _get_field_i18n "AUXILIARY HEATER" language
    let d2 := dictSet d1 AUXILIARY_HEATER_STATUS_KEY
      (.obool (_extract_boolean t lAux))
    let lB1 ← _get_field_i18n "BOOSTER HEATER STAGE 1" language
    let d3 := dictSet d2 BOOSTER_HEATER_1_STATUS_KEY
      (.obool (_extract_boolean t lB1))
    let lB2 ← _get_field_i18n "BOOSTER HEATER STAGE 2" language
    pure (dictSet d3 BOOSTER_HEATER_2_STATUS_KEY
      (.obool (_extract_boolean t lB2)))
  else
    pure d

/-- The table loop of `_extract_diagnosis_heat_pump_status`. -/
def diag_heat_pump_status_tables (language : String) (d : Dict) :
    List HTable → Except PyExc Dict
  | [] => .ok d
  | t :: ts => do
    let d' ← diag_heat_pump_status_table language d t
    diag_heat_pump_status_tables language d' ts

/-- `_extract_diagnosis_heat_pump_status` from `scrapper.py`: the result
is pre-seeded with all four status keys set to `False`. -/
def _extract_diagnosis_heat_pump_status (p : Page) : Except PyExc Dict :=
  diag_heat_pump_status_tables (_extract_language p)
    [(AUXILIARY_HEATER_STATUS_KEY, .obool false),
     (BOOSTER_HEATER_1_STATUS_KEY, .obool false),
     (BOOSTER_HEATER_2_STATUS_KEY, .obool false),
     (COMPRESSOR_STATUS_KEY, .obool false)] p.tables

/-- One table of the `_extract_diagnosis_system` loop: the `match` in the
source assigns the version string only for the literal header `"ISG"`. -/
def diag_system_table (language : String) (d : Dict) (t : HTable) :
    Except PyExc Dict := do
  let row0 ← listAt t.rows 0
  let headers := (row0.cells.filter (fun c => c.tag = CTag.th)).map (·.text)
  let h0 ← listAt headers 0
  if h0 = "ISG" then do
    let v ← _extract_version t language
    pure (dictSet d ATTR_SW_VERSION (.ostr v))
  else
    pure d

/-- The table loop of `_extract_diagnosis_system`. -/
def diag_system_tables (language : String) (d : Dict) :
    List HTable → Except PyExc Dict
  | [] => .ok d
  | t :: ts => do
    let d' ← diag_system_table language d t
    diag_system_tables language d' ts

/-- `_extract_diagnosis_system` from `scrapper.py`. -/
def _extract_diagnosis_system (p : Page) : Except PyExc Dict :=
  diag_system_tables (_extract_language p) [] p.tables

/-- Hexadecimal-nibble test, `[0-9a-fA-F]`. -/
def isHexNibble (c : Char) : Bool :=
  c.isDigit || ('a' ≤ c && c ≤ 'f') || ('A' ≤ c && c ≤ 'F')

/-- Backtracking matcher for `n` repetitions of `(?:[0-9a-fA-F]:?)` at
the head of the input, following Python `re` semantics: each repetition
requires a hex nibble and then greedily consumes an optional `:`,
backtracking to the colon-less alternative when the greedy choice fails.
Returns the number of characters consumed by the first (leftmost-greedy)
successful match. -/
def macRep : Nat → List Char → Option Nat
  | 0, _ => some 0
  | _ + 1, [] => none
  | n + 1, c :: rest =>
    if isHexNibble c then
      match rest with
      | ':' :: rest2 =>
        match macRep n rest2 with
        | some m => some (m + 2)
        | none => (macRep n rest).map (· + 1)
      | _ => (macRep n rest).map (· + 1)
    else none

/-- Leftmost match of `(?:[0-9a-fA-F]:?){12}` in a character list: try
each start position from the left, returning the matched characters. -/
def firstMacFrom : List Char → Option (List Char)
  | [] => none
  | c :: rest =>
    match macRep 12 (c :: rest) with
    | some k => some ((c :: rest).take k)
    | none => firstMacFrom rest

/-- The first match of the MAC-address pattern
`(?:[0-9a-fA-F]:?){12}` in a string: `re.findall(...)[0]` when any match
exists. -/
def findFirstMac (s : String) : Option String :=
  (firstMacFrom s.toList).map (fun cs => ⟨cs⟩)

/-- `_extract_profile_network` from `scrapper.py`: scan the page's full
visible text for the MAC pattern; the first match populates
`mac_address`, no match leaves the dict empty (an error is logged but
nothing is raised). -/
def _extract_profile_network (p : Page) : Dict :=
  match findFirstMac p.fullText with
  | some m => [(MAC_ADDRESS_KEY, .ostr m)]
  | none => []

/-- `_verify_response_or_raise` from `scrapper.py`: statuses 401 and 403
raise the authentication error; otherwise `response.raise_for_status()`
raises `aiohttp.ClientResponseError` exactly for statuses >= 400. -/
def _verify_response_or_raise (status : Nat) : Except PyExc Unit :=
  if status = 401 ∨ status = 403 then
    .error ⟨.scrapingClientAuthError, "Invalid credentials", none⟩
  else if 400 ≤ status then
    .error ⟨.aiohttpClientResponseError, "HTTP " ++ toString status, none⟩
  else
    .ok ()

/-- What one HTTP request attempt does, from the point of view of the
`try` block in `_api_wrapper`: a response with a status and a body text,
or one of the exception families the `except` clauses distinguish. -/
inductive HttpEvent where
  | response (status : Nat) (body : String)
  | raisesTimeout
  | raisesClientError
  | raisesOther (msg : String)
  deriving DecidableEq, Repr

/-- `_api_wrapper` from `scrapper.py`.  The `try` block performs the
request, runs `_verify_response_or_raise`, and reads the body; the
`except` clauses then classify, in source order: `TimeoutError` and
`aiohttp.ClientError`/`socket.gaierror` (which covers the
`ClientResponseError` raised by `raise_for_status`) become the
communication error, and the final broad `except Exception` — which also
catches the authentication error raised by `_verify_response_or_raise` —
becomes the generic scraping error; every re-raise attaches the original
exception as the cause. -/
def _api_wrapper (ev : HttpEvent) : Except PyExc String :=
  let tryBlock : Except PyExc String :=
    match ev with
    | .response status body =>
      match _verify_response_or_raise status with
      | .ok _ => .ok body
      | .error e => .error e
    | .raisesTimeout => .error ⟨.timeoutError, "", none⟩
    | .raisesClientError => .error ⟨.aiohttpClientError, "", none⟩
    | .raisesOther m => .error ⟨.otherExc, m, none⟩
  match tryBlock with
  | .ok b => .ok b
  | .error e =>
    match e.kind with
    | .timeoutError =>
      .error ⟨.scrapingClientCommError,
        "Timeout error fetching information - " ++ e.msg, some e.kind⟩
    | .aiohttpClientError =>
      .error ⟨.scrapingClientCommError,
        "Error fetching information - " ++ e.msg, some e.kind⟩
    | .aiohttpClientResponseError =>
      .error ⟨.scrapingClientCommError,
        "Error fetching information - " ++ e.msg, some e.kind⟩
    | _ =>
      .error ⟨.scrapingClientError,
        "Something really wrong happened! - " ++ e.msg, some e.kind⟩

/-- The effect monad of the client model: a computation threads the list
of request subpaths issued so far and either produces a value or stops
at the first raised exception. -/
def M (α : Type) : Type := List String → Except PyExc α × List String

/-- Return for `M`. -/
def mPure {α : Type} (a : α) : M α := fun tr => (.ok a, tr)

/-- Sequencing for `M`: a raised exception skips the continuation. -/
def mBind {α β : Type} (x : M α) (f : α → M β) : M β := fun tr =>
  match x tr with
  | (.ok a, tr') => f a tr'
  | (.error e, tr') => (.error e, tr')

/-- Embed a pure fallible step (extraction, parsing) into `M`. -/
def mLift {α : Type} (r : Except PyExc α) : M α := fun tr => (r, tr)

/-- One `self._api_wrapper(method="GET", url=...)` call: the request is
recorded in the trace and the device's behaviour for the subpath is
classified by `_api_wrapper`. -/
def mRequest (dev : String → HttpEvent) (path : String) : M String :=
  fun tr => (_api_wrapper (dev path), tr ++ [path])

/-- The `except aiohttp.ClientResponseError` clause shared by every
`async_scrape_*` method: such an exception is re-raised as the generic
scraping error with the original attached as cause; every other
exception propagates unchanged. -/
def wrapClientResponseExc (host : String) (e : PyExc) : PyExc :=
  if e.kind = .aiohttpClientResponseError then
    ⟨.scrapingClientError, "Failed to connect to " ++ host ++ " - " ++ e.msg,
      some e.kind⟩
  else e

/-- Apply the `except aiohttp.ClientResponseError` clause around a
scrape body. -/
def scrapeWrap {α : Type} (host : String) (x : M α) : M α := fun tr =>
  match x tr with
  | (.error e, tr') => (.error (wrapClientResponseExc host e), tr')
  | ok => ok

/-- The scraping client model: the configured host, the device's
behaviour per URL subpath (the session), and the external BeautifulSoup
parser turning a body text into a page model. -/
structure Client where
  host : String
  dev : String → HttpEvent
  parse : String → Page

/-- `async_scrape_info_system` from `scrapper.py`. -/
def async_scrape_info_system (c : Client) : M Dict :=
  scrapeWrap c.host (mBind (mRequest c.dev INFO_SYSTEM_PATH)
    (fun body => mLift (_extract_info_system (c.parse body))))

/-- `async_scrape_info_heatpump` from `scrapper.py`. -/
def async_scrape_info_heatpump (c : Client) : M Dict :=
  scrapeWrap c.host (mBind (mRequest c.dev INFO_HEATPUMP_PATH)
    (fun body => mLift (_extract_info_heatpump (c.parse body))))

/-- `async_scrape_diagnosis_system_status` from `scrapper.py`. -/
def async_scrape_diagnosis_system_status (c : Client) : M Dict :=
  scrapeWrap c.host (mBind (mRequest c.dev DIAGNOSIS_SYSTEM_STATUS_PATH)
    (fun body => mLift (_extract_diagnosis_system_status (c.parse body))))

/-- `async_scrape_diagnosis_heat_pump_status` from `scrapper.py`. -/
def async_scrape_diagnosis_heat_pump_status (c : Client) : M Dict :=
  scrapeWrap c.host (mBind (mRequest c.dev DIAGNOSIS_HEAT_PUMP_STATUS_PATH)
    (fun body => mLift (_extract_diagnosis_heat_pump_status (c.parse body))))

/-- `async_scrape_diagnosis_system` from `scrapper.py`. -/
def async_scrape_diagnosis_system (c : Client) : M Dict :=
  scrapeWrap c.host (mBind (mRequest c.dev DIAGNOSIS_SYSTEM_PATH)
    (fun body => mLift (_extract_diagnosis_system (c.parse body))))

/-- `async_scrape_profile_network` from `scrapper.py` (its extractor is
total). -/
def async_scrape_profile_network (c : Client) : M Dict :=
  scrapeWrap c.host (mBind (mRequest c.dev PROFILE_NETWORK_PATH)
    (fun body => mPure (_extract_profile_network (c.parse body))))

/-- `async_fetch_all` from `scrapper.py`: start from an empty dict and,
page by page, fetch and merge the four extraction results in source
order (info/system, info/heat pump, diagnosis/heat pump status,
diagnosis/system status). -/
def async_fetch_all (c : Client) : M Dict :=
  mBind (async_scrape_info_system c) (fun r1 =>
  mBind (async_scrape_info_heatpump c) (fun r2 =>
  mBind (async_scrape_diagnosis_heat_pump_status c) (fun r3 =>
  mBind (async_scrape_diagnosis_system_status c) (fun r4 =>
  mPure (dictUpdate (dictUpdate (dictUpdate (dictUpdate [] r1) r2) r3) r4)))))

theorem pyFloatE_cases (s : String) :
    (∃ q, pyFloatE s = .ok q) ∨
      pyFloatE s =
        .error ⟨.valueError, "could not convert string to float: " ++ s, none⟩ := by
  unfold pyFloatE
  cases pyFloat s with
  | none => right; rfl
  | some q => left; exact ⟨q, rfl⟩

theorem convert_temperature_total (s : String) :
    ∃ r, _convert_temperature s = .ok r := by
  rcases pyFloatE_cases (pyStrip (pyReplace (pyReplace s "," ".") "°C" ""))
    with ⟨q, h⟩ | h
  · exact ⟨some q, by simp [_convert_temperature, h]⟩
  · exact ⟨none, by simp [_convert_temperature, h]⟩

theorem convert_percentage_total (s : String) :
    ∃ r, _convert_percentage s = .ok r := by
  rcases pyFloatE_cases (pyStrip (pyReplace (pyReplace s "," ".") "%" ""))
    with ⟨q, h⟩ | h
  · exact ⟨some q, by simp [_convert_percentage, h]⟩
  · exact ⟨none, by simp [_convert_percentage, h]⟩

theorem convert_number_total (s : String) :
    ∃ r, _convert_number s = .ok r := by
  rcases pyFloatE_cases (pyStrip (pyReplace s "," "."))
    with ⟨q, h⟩ | h
  · exact ⟨some q, by simp [_convert_number, h]⟩
  · exact ⟨none, by simp [_convert_number, h]⟩

theorem convert_energy_eq (s : String) :
    _convert_energy s =
      if (strContainsSub s "KWh" || strContainsSub s "MWh") = true then
        .ok ((pyFloat (energyClean s)).map
          (fun q => if strContainsSub s "MWh" then ratMul1000 q else q))
      else .ok none := by
  unfold _convert_energy pyFloatE
  by_cases h : (strContainsSub s "KWh" || strContainsSub s "MWh") = true
  · simp only [h, if_true, Bool.not_true, Bool.false_eq_true, if_false]
    cases pyFloat (energyClean s) <;> rfl
  · have h' : (strContainsSub s "KWh" || strContainsSub s "MWh") = false :=
      Bool.eq_false_iff.mpr h
    simp only [h', if_false, Bool.not_false, if_true]
    rfl

theorem convert_energy_total (s : String) :
    ∃ r, _convert_energy s = .ok r := by
  rw [convert_energy_eq]
  by_cases h : (strContainsSub s "KWh" || strContainsSub s "MWh") = true
  · rw [if_pos h]; exact ⟨_, rfl⟩
  · rw [if_neg h]; exact ⟨_, rfl⟩

/-- C7: each value converter (`_convert_temperature`,
`_convert_percentage`, `_convert_number`, `_convert_energy`) is total on
string inputs: it always returns a value (`float` or `None`) and never
lets an exception escape — the `except ValueError` handler covers the
only failure of the embedded `float` call. -/
theorem C7_converters_total (s : String) :
    (∃ r, _convert_temperature s = .ok r) ∧
      (∃ r, _convert_percentage s = .ok r) ∧
      (∃ r, _convert_number s = .ok r) ∧
      (∃ r, _convert_energy s = .ok r) :=
  ⟨convert_temperature_total s, convert_percentage_total s,
    convert_number_total s, convert_energy_total s⟩

/-- C4: `_convert_energy` rejects inputs without the case-sensitive unit
literal `KWh` or `MWh` as `None`; with a unit present it cleans the text
(unit stripped, decimal comma to point), parses, scales `MWh` values by
1000, and turns a parse failure into `None`; concretely
`"24,249MWh" ↦ 24249`, `"5KWh" ↦ 5`, and `"5kWh"` (wrong case) `↦ None`. -/
theorem C4_convert_energy :
    (∀ s : String, strContainsSub s "KWh" = false →
      strContainsSub s "MWh" = false → _convert_energy s = .ok none) ∧
    (∀ s : String, (strContainsSub s "KWh" || strContainsSub s "MWh") = true →
      _convert_energy s =
        .ok ((pyFloat (energyClean s)).map
          (fun q => if strContainsSub s "MWh" then q * 1000 else q))) ∧
    _convert_energy "24,249MWh" = .ok (some (24249 : ℚ)) ∧
    _convert_energy "5KWh" = .ok (some (5 : ℚ)) ∧
    _convert_energy "5kWh" = .ok none := by
  refine ⟨?_, ?_, by decide, by decide, by decide⟩
  · intro s h1 h2
    rw [convert_energy_eq, h1, h2]
    rfl
  · intro s h
    rw [convert_energy_eq, if_pos h]
    congr 1
    congr 1
    funext q
    rw [ratMul1000_eq]

theorem C4_convert_energy_witness :
    _convert_energy "no unit here" = .ok none :=
  C4_convert_energy.1 "no unit here" (by decide) (by decide)

/-- C6: `_extract_language` returns `"ENGLISH"` when no language div is
present or the first one has empty text, uses the first div when several
are present, and passes any other non-empty marker text through
unmodified; it never raises. -/
theorem C6_extract_language (p : Page) :
    (p.langDivTexts = [] → _extract_language p = "ENGLISH") ∧
    (∀ t ts, p.langDivTexts = t :: ts →
      _extract_language p = if t = "" then "ENGLISH" else t) := by
  constructor
  · intro h
    unfold _extract_language
    rw [h]
  · intro t ts h
    unfold _extract_language
    rw [h]

theorem C6_extract_language_witness :
    _extract_language ⟨[], [], ""⟩ = "ENGLISH" ∧
      _extract_language ⟨["", "DEUTSCH"], [], ""⟩ = "ENGLISH" ∧
      _extract_language ⟨["KLINGON", "DEUTSCH"], [], ""⟩ = "KLINGON" := by
  refine ⟨(C6_extract_language ⟨[], [], ""⟩).1 rfl, ?_, ?_⟩
  · have h := (C6_extract_language ⟨["", "DEUTSCH"], [], ""⟩).2 "" ["DEUTSCH"] rfl
    simpa using h
  · have h :=
      (C6_extract_language ⟨["KLINGON", "DEUTSCH"], [], ""⟩).2 "KLINGON"
        ["DEUTSCH"] rfl
    simpa using h

/-- C9: `_extract_profile_network` scans the page's full visible text
with the MAC pattern `(?:[0-9a-fA-F]:?){12}`; the first match populates
the `mac_address` key (for `"...MAC: AA:BB:CC:DD:EE:FF..."` the value is
`"AA:BB:CC:DD:EE:FF"`), and with no match the returned mapping simply
lacks the key — nothing is raised. -/
theorem C9_profile_network :
    _extract_profile_network ⟨[], [], "...MAC: AA:BB:CC:DD:EE:FF..."⟩ =
      [(MAC_ADDRESS_KEY, .ostr "AA:BB:CC:DD:EE:FF")] ∧
    (∀ p : Page, findFirstMac p.fullText = none →
      _extract_profile_network p = []) ∧
    (∀ (p : Page) (m : String), findFirstMac p.fullText = some m →
      _extract_profile_network p = [(MAC_ADDRESS_KEY, .ostr m)]) := by
  refine ⟨by decide, ?_, ?_⟩
  · intro p h
    unfold _extract_profile_network
    rw [h]
  · intro p m h
    unfold _extract_profile_network
    rw [h]

theorem C9_profile_network_witness :
    _extract_profile_network ⟨[], [], "nothing to see"⟩ = [] :=
  C9_profile_network.2.1 ⟨[], [], "nothing to see"⟩ (by decide)

/-- Spec-side reading of one boolean row: the row's first cell equals
the label and its second cell holds an icon whose `src` contains the
on-marker. -/
def rowHasOnIcon (hdr : String) (r : TRow) : Bool :=
  match r.cells with
  | c0 :: c1 :: _ =>
    c0.text = hdr &&
      (match c1.imgs.head? with
       | some icon =>
         match icon.src with
         | some s => strContainsSub s ICON_ON_SRC
         | none => false
       | none => false)
  | _ => false

/-- Spec-side description of the scan `_extract_boolean` performs: the
`src` of the icon in the first row that matches the label and carries an
icon with a non-empty `src`; rows failing any of those tests are
skipped. -/
def firstIconSrcSpec (hdr : String) : List TRow → Option String
  | [] => none
  | r :: rs =>
    match r.cells with
    | c0 :: c1 :: _ =>
      if c0.text = hdr then
        match c1.imgs.head? with
        | some icon =>
          match icon.src with
          | some s => if s = "" then firstIconSrcSpec hdr rs else some s
          | none => firstIconSrcSpec hdr rs
        | none => firstIconSrcSpec hdr rs
      else firstIconSrcSpec hdr rs
    | _ => firstIconSrcSpec hdr rs

theorem extract_boolean_rows_eq (hdr : String) (rs : List TRow) :
    extract_boolean_rows hdr rs =
      match firstIconSrcSpec hdr rs with
      | some s => strContainsSub s ICON_ON_SRC
      | none => false := by
  induction rs with
  | nil => rfl
  | cons r rs ih =>
    cases hc : r.cells with
    | nil => simp only [extract_boolean_rows, firstIconSrcSpec, hc, ih]
    | cons c0 tl =>
      cases tl with
      | nil => simp only [extract_boolean_rows, firstIconSrcSpec, hc, ih]
      | cons c1 tl2 =>
        by_cases ht : c0.text = hdr
        · cases hi : c1.imgs.head? with
          | none =>
            simp [extract_boolean_rows, firstIconSrcSpec, hc, ht, hi, ih]
          | some icon =>
            cases hs : icon.src with
            | none =>
              simp [extract_boolean_rows, firstIconSrcSpec, hc, ht, hi, hs, ih]
            | some s =>
              by_cases hse : s = ""
              · simp [extract_boolean_rows, firstIconSrcSpec, hc, ht, hi, hs,
                  hse, ih]
              · simp [extract_boolean_rows, firstIconSrcSpec, hc, ht, hi, hs,
                  hse]
        · simp [extract_boolean_rows, firstIconSrcSpec, hc, ht, ih]

/-- A table with two rows labelled `"L"`: the first carries an off-icon,
the second an on-icon. -/
def cexBoolTable : HTable :=
  ⟨[⟨[⟨CTag.td, "L", []⟩, ⟨CTag.td, "", [⟨some "ste-symbol_aus-off.png"⟩]⟩]⟩,
    ⟨[⟨CTag.td, "L", []⟩, ⟨CTag.td, "", [⟨some "ste-symbol_an-on.png"⟩]⟩]⟩]⟩

/-- C5 counterexample: a row whose first cell equals the label and whose
adjacent icon `src` contains the on-marker exists (the second row), yet
`_extract_boolean` answers `false`, because the scan is decided by the
first labelled row carrying an icon with a `src` — here the off-icon
row. -/
theorem C5_counterexample :
    _extract_boolean cexBoolTable "L" = false ∧
      cexBoolTable.rows.any (rowHasOnIcon "L") = true := by decide

/-- C5 (amended): `_extract_boolean` is decided by the first row whose
first cell equals the label and whose adjacent cell carries an icon with
a non-empty `src`: the result is `true` iff that `src` contains the
on-marker `"ste-symbol_an-"`.  When no such row exists — no matching
row, no icon, or no `src` attribute — the result is `false`, and the
function never raises (it is total by construction). -/
theorem C5_boolean_first_match (t : HTable) (hdr : String) :
    (_extract_boolean t hdr =
      match firstIconSrcSpec hdr t.rows with
      | some s => strContainsSub s ICON_ON_SRC
      | none => false) ∧
    (firstIconSrcSpec hdr t.rows = none → _extract_boolean t hdr = false) := by
  constructor
  · exact extract_boolean_rows_eq hdr t.rows
  · intro h
    rw [_extract_boolean, extract_boolean_rows_eq, h]

theorem C5_boolean_first_match_witness :
    _extract_boolean ⟨[⟨[⟨CTag.td, "other", []⟩, ⟨CTag.td, "x", []⟩]⟩]⟩ "L" =
      false :=
  (C5_boolean_first_match ⟨[⟨[⟨CTag.td, "other", []⟩, ⟨CTag.td, "x", []⟩]⟩]⟩
    "L").2 (by decide)

/-- C3: evaluation of `_api_wrapper` at the decisive inputs.  A 401/403
response does NOT surface as the authentication error: the
`StiebelEltronScrapingClientAuthenticationError` raised by
`_verify_response_or_raise` is caught by the broad `except Exception`
clause of `_api_wrapper` and re-raised as the generic
`StiebelEltronScrapingClientError` (with the authentication error as
cause).  Statuses >= 400 become the communication error, a timeout
becomes the communication error, an unexpected exception becomes the
generic error, a 3xx such as 304 raises nothing, and each re-raise
carries the original cause. -/
theorem C3_api_wrapper_eval :
    _api_wrapper (.response 401 "") =
      .error ⟨.scrapingClientError,
        "Something really wrong happened! - Invalid credentials",
        some .scrapingClientAuthError⟩ ∧
    _api_wrapper (.response 403 "") =
      .error ⟨.scrapingClientError,
        "Something really wrong happened! - Invalid credentials",
        some .scrapingClientAuthError⟩ ∧
    _api_wrapper (.response 404 "") =
      .error ⟨.scrapingClientCommError, "Error fetching information - HTTP 404",
        some .aiohttpClientResponseError⟩ ∧
    _api_wrapper .raisesTimeout =
      .error ⟨.scrapingClientCommError, "Timeout error fetching information - ",
        some .timeoutError⟩ ∧
    _api_wrapper (.raisesOther "boom") =
      .error ⟨.scrapingClientError, "Something really wrong happened! - boom",
        some .otherExc⟩ ∧
    _api_wrapper (.response 304 "cached body") = .ok "cached body" ∧
    _api_wrapper (.response 200 "body") = .ok "body" := by
  decide

/-- A page whose language marker reads `FRANÇAIS` (a placeholder entry
of `FIELDS_I18N`) and which contains one data row, so that the extractor
reaches a localization lookup. -/
def pageFR : Page :=
  ⟨["FRANÇAIS"],
   [⟨[⟨[⟨CTag.td, "X", []⟩, ⟨CTag.td, "Y", []⟩]⟩]⟩],
   ""⟩

/-- A client whose device always answers 200 and whose parser yields
`pageFR`. -/
def clientFR : Client :=
  ⟨"isg.local", fun _ => .response 200 "page", fun _ => pageFR⟩

/-- C2 counterexample: with a placeholder language the info/system
scrape surfaces the localization failure to its caller as a plain
`ValueError`, which is not in the `StiebelEltronScrapingClientError`
hierarchy — the scrape methods only translate
`aiohttp.ClientResponseError`. -/
theorem C2_counterexample :
    (async_scrape_info_system clientFR []).1 =
      .error ⟨.valueError, "Unsupported language for i18n: FRANÇAIS", none⟩ ∧
      isScrapingClientError ExcKind.valueError = false := by
  decide

/-- C2 (amended): `_get_field_i18n` has a single failure path — the
same `ValueError` — for a language absent from `FIELDS_I18N`, a language
present only as a placeholder entry, and a field key absent from an
implemented language's dictionary; but when a page extractor hits such a
failure it propagates to the caller of the scrape method unchanged as
that `ValueError`, outside the `StiebelEltronScrapingClientError`
hierarchy. -/
theorem C2_i18n_failure_paths :
    (∀ field lang, i18nGet FIELDS_I18N lang = none →
      _get_field_i18n field lang =
        .error ⟨.valueError, "Unsupported language for i18n: " ++ lang, none⟩) ∧
    (∀ field lang s, i18nGet FIELDS_I18N lang = some (.placeholder s) →
      _get_field_i18n field lang =
        .error ⟨.valueError, "Unsupported language for i18n: " ++ lang, none⟩) ∧
    (∀ field lang m, i18nGet FIELDS_I18N lang = some (.dict m) →
      dictGetStr m field = none →
      _get_field_i18n field lang =
        .error ⟨.valueError, "Unsupported language for i18n: " ++ lang, none⟩) ∧
    (∀ (c : Client) (body : String) (e : PyExc),
      _api_wrapper (c.dev INFO_SYSTEM_PATH) = .ok body →
      _extract_info_system (c.parse body) = .error e →
      e.kind = .valueError →
      (async_scrape_info_system c []).1 = .error e ∧
        isScrapingClientError e.kind = false) := by
  refine ⟨?_, ?_, ?_, ?_⟩
  · intro field lang h
    unfold _get_field_i18n
    rw [h]
  · intro field lang s h
    unfold _get_field_i18n
    rw [h]
  · intro field lang m h h2
    simp only [_get_field_i18n, h, h2]
  · intro c body e h1 h2 hk
    unfold async_scrape_info_system scrapeWrap mBind mRequest mLift
    rw [h1]
    constructor
    · simp only [h2, wrapClientResponseExc, hk]
      rfl
    · rw [hk]
      rfl

theorem C2_i18n_failure_paths_witness :
    _get_field_i18n "DEFROST" "KLINGON" =
      .error ⟨.valueError, "Unsupported language for i18n: KLINGON", none⟩ :=
  C2_i18n_failure_paths.1 "DEFROST" "KLINGON" (by decide)

theorem extract_version_rows_ok (lang l1 l2 l3 : String)
    (h1 : _get_field_i18n "MAJOR_VERSION" lang = .ok l1)
    (h2 : _get_field_i18n "MINOR_VERSION" lang = .ok l2)
    (h3 : _get_field_i18n "REVISION" lang = .ok l3) :
    ∀ (rs : List TRow) (acc : Option String × Option String × Option String),
      ∃ v, extract_version_rows lang acc rs = .ok v := by
  intro rs
  induction rs with
  | nil => intro acc; exact ⟨acc, rfl⟩
  | cons r rs ih =>
    intro acc
    cases hc : r.cells.map (·.text) with
    | nil => simpa [extract_version_rows, hc] using ih acc
    | cons t0 tl =>
      cases tl with
      | nil => simpa [extract_version_rows, hc] using ih acc
      | cons t1 tl2 =>
        by_cases e1 : t0 = l1
        · simpa [extract_version_rows, hc, h1, e1, bind, Except.bind]
            using ih (some t1, acc.2.1, acc.2.2)
        · by_cases e2 : t0 = l2
          · simp only [extract_version_rows, hc, h1, h2, bind, Except.bind]
            rw [if_neg e1, if_pos e2]
            exact ih (acc.1, some t1, acc.2.2)
          · by_cases e3 : t0 = l3
            · simp only [extract_version_rows, hc, h1, h2, h3, bind,
                Except.bind]
              rw [if_neg e1, if_neg e2, if_pos e3]
              exact ih (acc.1, acc.2.1, some t1)
            · simp only [extract_version_rows, hc, h1, h2, h3, bind,
                Except.bind]
              rw [if_neg e1, if_neg e2, if_neg e3]
              exact ih acc

/-- Spec-side test for a row carrying one of the three version
component labels (in at least two cell texts). -/
def versionRowMatches (l1 l2 l3 : String) (r : TRow) : Bool :=
  match r.cells.map (·.text) with
  | t0 :: _ :: _ => t0 = l1 || t0 = l2 || t0 = l3
  | _ => false

theorem extract_version_rows_nomatch (lang l1 l2 l3 : String)
    (h1 : _get_field_i18n "MAJOR_VERSION" lang = .ok l1)
    (h2 : _get_field_i18n "MINOR_VERSION" lang = .ok l2)
    (h3 : _get_field_i18n "REVISION" lang = .ok l3) :
    ∀ (rs : List TRow),
      rs.all (fun r => !versionRowMatches l1 l2 l3 r) = true →
      ∀ acc, extract_version_rows lang acc rs = .ok acc := by
  intro rs
  induction rs with
  | nil => intro _ acc; rfl
  | cons r rs ih =>
    intro hall acc
    rw [List.all_cons, Bool.and_eq_true] at hall
    obtain ⟨hr, hrs⟩ := hall
    cases hc : r.cells.map (·.text) with
    | nil => simpa [extract_version_rows, hc] using ih hrs acc
    | cons t0 tl =>
      cases tl with
      | nil => simpa [extract_version_rows, hc] using ih hrs acc
      | cons t1 tl2 =>
        rw [versionRowMatches, hc] at hr
        simp only [Bool.not_or, Bool.and_eq_true, Bool.not_eq_eq_eq_not,
          Bool.not_true, decide_eq_false_iff_not] at hr
        obtain ⟨⟨e1, e2⟩, e3⟩ := hr
        simpa [extract_version_rows, hc, h1, h2, h3, e1, e2, e3, bind,
          Except.bind] using ih hrs acc

theorem dictSet_mem_self (d : Dict) (k : String) (v : Val) :
    k ∈ dictKeys (dictSet d k v) := by
  induction d with
  | nil => simp [dictSet, dictKeys]
  | cons kv d ih =>
    obtain ⟨k', v'⟩ := kv
    by_cases h : k' = k
    · simp [dictSet, dictKeys, h]
    · simp only [dictSet, if_neg h]
      simp only [dictKeys, List.map_cons, List.mem_cons]
      exact Or.inr ih

theorem dictSet_mem_mono (d : Dict) (k' k : String) (v : Val) :
    k' ∈ dictKeys d → k' ∈ dictKeys (dictSet d k v) := by
  induction d with
  | nil => intro h; simp [dictKeys] at h
  | cons kv d ih =>
    obtain ⟨k0, v0⟩ := kv
    intro h
    simp only [dictKeys, List.map_cons, List.mem_cons] at h
    by_cases h0 : k0 = k
    · rcases h with h | h
      · simp [dictSet, h0, dictKeys, h]
      · simp only [dictSet, if_pos h0]
        simp only [dictKeys, List.map_cons, List.mem_cons]
        exact Or.inr h
    · simp only [dictSet, if_neg h0]
      simp only [dictKeys, List.map_cons, List.mem_cons]
      rcases h with h | h
      · exact Or.inl h
      · exact Or.inr (ih h)

theorem dictSet_keys_sub (d : Dict) (k : String) (v : Val) :
    ∀ k', k' ∈ dictKeys (dictSet d k v) → k' ∈ dictKeys d ∨ k' = k := by
  induction d with
  | nil => intro k' h; simpa [dictSet, dictKeys] using h
  | cons kv d ih =>
    obtain ⟨k0, v0⟩ := kv
    intro k' h
    by_cases h0 : k0 = k
    · simp only [dictSet, if_pos h0, dictKeys, List.map_cons, List.mem_cons] at h
      rcases h with h | h
      · left; simp [dictKeys, h]
      · left; simp [dictKeys, h]
    · simp only [dictSet, if_neg h0, dictKeys, List.map_cons, List.mem_cons] at h
      rcases h with h | h
      · left; simp [dictKeys, h]
      · rcases ih k' h with h' | h'
        · left; simp only [dictKeys, List.map_cons, List.mem_cons]
          exact Or.inr h'
        · right; exact h'

/-- Spec-side test for a table whose first row's first `th` text is the
literal `"ISG"`. -/
def isgHeaded (t : HTable) : Bool :=
  match t.rows.head? with
  | some row0 =>
    ((row0.cells.filter (fun c => c.tag = CTag.th)).map (·.text)).head? =
      some "ISG"
  | none => false

theorem diag_system_table_preserves (lang : String) (d : Dict) (t : HTable)
    (d' : Dict) (h : diag_system_table lang d t = .ok d') :
    ∀ k, k ∈ dictKeys d → k ∈ dictKeys d' := by
  intro k hk
  unfold diag_system_table at h
  cases hrow : listAt t.rows 0 with
  | error e => rw [hrow] at h; simp [bind, Except.bind] at h
  | ok row0 =>
    rw [hrow] at h
    simp only [bind, Except.bind] at h
    cases hh :
        listAt ((row0.cells.filter (fun c => c.tag = CTag.th)).map (·.text)) 0
        with
    | error e => rw [hh] at h; simp at h
    | ok h0 =>
      rw [hh] at h
      by_cases hi : h0 = "ISG"
      · subst hi
        simp only [↓reduceIte] at h
        cases hv : _extract_version t lang with
        | error e => rw [hv] at h; simp at h
        | ok v =>
          rw [hv] at h
          simp only [pure, Except.pure, Except.ok.injEq] at h
          subst h
          exact dictSet_mem_mono d k ATTR_SW_VERSION (.ostr v) hk
      · simp only [if_neg hi, pure, Except.pure, Except.ok.injEq] at h
        subst h
        exact hk

theorem diag_system_table_isg (lang : String) (d : Dict) (t : HTable)
    (d' : Dict) (hisg : isgHeaded t = true)
    (h : diag_system_table lang d t = .ok d') :
    ATTR_SW_VERSION ∈ dictKeys d' := by
  unfold diag_system_table at h
  unfold isgHeaded at hisg
  cases hr : t.rows with
  | nil => rw [hr] at hisg; simp at hisg
  | cons row0 rest =>
    rw [hr] at hisg
    simp only [List.head?] at hisg
    rw [decide_eq_true_eq] at hisg
    rw [hr] at h
    simp only [listAt, List.get?, bind, Except.bind] at h
    cases hhl : (row0.cells.filter (fun c => c.tag = CTag.th)).map (·.text) with
    | nil => rw [hhl] at hisg; simp at hisg
    | cons hd tl =>
      rw [hhl] at hisg
      simp only [List.head?, Option.some.injEq] at hisg
      rw [hhl] at h
      simp only [listAt, List.get?, bind, Except.bind] at h
      rw [if_pos hisg] at h
      cases hv : _extract_version t lang with
      | error e => rw [hv] at h; simp [bind, Except.bind] at h
      | ok v =>
        rw [hv] at h
        simp only [bind, Except.bind, pure, Except.pure] at h
        injection h with h
        subst h
        exact dictSet_mem_self d ATTR_SW_VERSION (.ostr v)

theorem diag_system_tables_key (lang : String) :
    ∀ (ts : List HTable) (d0 d : Dict),
      diag_system_tables lang d0 ts = .ok d →
      (ts.any isgHeaded = true ∨ ATTR_SW_VERSION ∈ dictKeys d0) →
      ATTR_SW_VERSION ∈ dictKeys d := by
  intro ts
  induction ts with
  | nil =>
    intro d0 d h hd
    injection h with h
    subst h
    rcases hd with hd | hd
    · simp at hd
    · exact hd
  | cons t ts ih =>
    intro d0 d h hd
    unfold diag_system_tables at h
    cases ht : diag_system_table lang d0 t with
    | error e => rw [ht] at h; simp [bind, Except.bind] at h
    | ok d1 =>
      rw [ht] at h
      simp only [bind, Except.bind] at h
      rcases hd with hd | hd
      · rw [List.any_cons, Bool.or_eq_true] at hd
        rcases hd with hd | hd
        · exact ih d1 d h (Or.inr (diag_system_table_isg lang d0 t d1 hd ht))
        · exact ih d1 d h (Or.inl hd)
      · exact ih d1 d h
          (Or.inr (diag_system_table_preserves lang d0 t d1 ht _ hd))

/-- A diagnosis/system page whose single table has only the `"ISG"`
header row, so none of the three version component labels occurs. -/
def pageISG : Page := ⟨[], [⟨[⟨[⟨CTag.th, "ISG", []⟩]⟩]⟩], ""⟩

/-- C10: on a diagnosis/system page with an `"ISG"`-headed table the
software-version key is always populated with the f-string
`"{major}.{minor}.{revision}"`; missing component rows cause no error
and render as the literal `"None"`, so a table with none of the three
labels yields `"None.None.None"`, and the key is present in the result
whenever extraction succeeds. -/
theorem C10_version_none_rendering :
    (∀ (t : HTable) (lang l1 l2 l3 : String),
      _get_field_i18n "MAJOR_VERSION" lang = .ok l1 →
      _get_field_i18n "MINOR_VERSION" lang = .ok l2 →
      _get_field_i18n "REVISION" lang = .ok l3 →
      ∃ s, _extract_version t lang = .ok s) ∧
    (∀ (t : HTable) (lang l1 l2 l3 : String),
      _get_field_i18n "MAJOR_VERSION" lang = .ok l1 →
      _get_field_i18n "MINOR_VERSION" lang = .ok l2 →
      _get_field_i18n "REVISION" lang = .ok l3 →
      t.rows.all (fun r => !versionRowMatches l1 l2 l3 r) = true →
      _extract_version t lang = .ok "None.None.None") ∧
    (∀ (p : Page) (d : Dict),
      _extract_diagnosis_system p = .ok d →
      p.tables.any isgHeaded = true →
      ATTR_SW_VERSION ∈ dictKeys d) ∧
    _extract_diagnosis_system pageISG =
      .ok [(ATTR_SW_VERSION, .ostr "None.None.None")] := by
  refine ⟨?_, ?_, ?_, by decide⟩
  · intro t lang l1 l2 l3 h1 h2 h3
    obtain ⟨v, hv⟩ := extract_version_rows_ok lang l1 l2 l3 h1 h2 h3 t.rows
      (none, none, none)
    refine ⟨pyShowOptStr v.1 ++ "." ++ pyShowOptStr v.2.1 ++ "." ++
      pyShowOptStr v.2.2, ?_⟩
    simp [_extract_version, hv, bind, Except.bind, pure, Except.pure]
  · intro t lang l1 l2 l3 h1 h2 h3 hall
    have hv := extract_version_rows_nomatch lang l1 l2 l3 h1 h2 h3 t.rows hall
      (none, none, none)
    simp [_extract_version, hv, bind, Except.bind, pure, Except.pure,
      pyShowOptStr]
  · intro p d h hany
    unfold _extract_diagnosis_system at h
    exact diag_system_tables_key (_extract_language p) p.tables _ d h
      (Or.inl hany)

theorem C10_version_none_rendering_witness :
    _extract_version ⟨[⟨[⟨CTag.th, "ISG", []⟩]⟩]⟩ "ENGLISH" =
      .ok "None.None.None" :=
  C10_version_none_rendering.2.1 ⟨[⟨[⟨CTag.th, "ISG", []⟩]⟩]⟩ "ENGLISH"
    "Major version" "Minor version" "Revision" (by decide) (by decide)
    (by decide) (by decide)

theorem scrape_shape_fst (host : String) (dev : String → HttpEvent)
    (path : String) (f : String → Except PyExc Dict) (tr : List String) :
    (scrapeWrap host (mBind (mRequest dev path)
        (fun body => mLift (f body))) tr).1 =
      match _api_wrapper (dev path) with
      | .ok body =>
        match f body with
        | .ok d => .ok d
        | .error e => .error (wrapClientResponseExc host e)
      | .error e => .error (wrapClientResponseExc host e) := by
  unfold scrapeWrap mBind mRequest mLift
  cases ha : _api_wrapper (dev path) with
  | ok body => cases hf : f body <;> simp [hf]
  | error e => rfl

theorem scrape_shape_snd (host : String) (dev : String → HttpEvent)
    (path : String) (f : String → Except PyExc Dict) (tr : List String) :
    (scrapeWrap host (mBind (mRequest dev path)
        (fun body => mLift (f body))) tr).2 = tr ++ [path] := by
  unfold scrapeWrap mBind mRequest mLift
  cases ha : _api_wrapper (dev path) with
  | ok body => cases hf : f body <;> simp [hf]
  | error e => rfl

theorem scrape_shape_ok (host : String) (dev : String → HttpEvent)
    (path : String) (f : String → Except PyExc Dict) (tr : List String)
    (d : Dict)
    (h : (scrapeWrap host (mBind (mRequest dev path)
        (fun body => mLift (f body))) tr).1 = .ok d) :
    ∃ body, _api_wrapper (dev path) = .ok body ∧ f body = .ok d := by
  rw [scrape_shape_fst] at h
  cases ha : _api_wrapper (dev path) with
  | ok body =>
    rw [ha] at h
    refine ⟨body, rfl, ?_⟩
    cases hf : f body with
    | ok d0 =>
      simp only [hf] at h
      injection h with h
      subst h
      rfl
    | error e =>
      simp only [hf] at h
      exact absurd h (by simp)
  | error e =>
    rw [ha] at h
    simp at h

theorem scrape1_fst_indep (c : Client) (tr tr' : List String) :
    (async_scrape_info_system c tr).1 = (async_scrape_info_system c tr').1 := by
  unfold async_scrape_info_system
  rw [scrape_shape_fst, scrape_shape_fst]

theorem scrape2_fst_indep (c : Client) (tr tr' : List String) :
    (async_scrape_info_heatpump c tr).1 =
      (async_scrape_info_heatpump c tr').1 := by
  unfold async_scrape_info_heatpump
  rw [scrape_shape_fst, scrape_shape_fst]

theorem scrape3_fst_indep (c : Client) (tr tr' : List String) :
    (async_scrape_diagnosis_heat_pump_status c tr).1 =
      (async_scrape_diagnosis_heat_pump_status c tr').1 := by
  unfold async_scrape_diagnosis_heat_pump_status
  rw [scrape_shape_fst, scrape_shape_fst]

theorem scrape4_fst_indep (c : Client) (tr tr' : List String) :
    (async_scrape_diagnosis_system_status c tr).1 =
      (async_scrape_diagnosis_system_status c tr').1 := by
  unfold async_scrape_diagnosis_system_status
  rw [scrape_shape_fst, scrape_shape_fst]

theorem scrape1_snd (c : Client) (tr : List String) :
    (async_scrape_info_system c tr).2 = tr ++ [INFO_SYSTEM_PATH] :=
  scrape_shape_snd c.host c.dev INFO_SYSTEM_PATH
    (fun body => _extract_info_system (c.parse body)) tr

theorem scrape2_snd (c : Client) (tr : List String) :
    (async_scrape_info_heatpump c tr).2 = tr ++ [INFO_HEATPUMP_PATH] :=
  scrape_shape_snd c.host c.dev INFO_HEATPUMP_PATH
    (fun body => _extract_info_heatpump (c.parse body)) tr

theorem scrape3_snd (c : Client) (tr : List String) :
    (async_scrape_diagnosis_heat_pump_status c tr).2 =
      tr ++ [DIAGNOSIS_HEAT_PUMP_STATUS_PATH] :=
  scrape_shape_snd c.host c.dev DIAGNOSIS_HEAT_PUMP_STATUS_PATH
    (fun body => _extract_diagnosis_heat_pump_status (c.parse body)) tr

theorem scrape4_snd (c : Client) (tr : List String) :
    (async_scrape_diagnosis_system_status c tr).2 =
      tr ++ [DIAGNOSIS_SYSTEM_STATUS_PATH] :=
  scrape_shape_snd c.host c.dev DIAGNOSIS_SYSTEM_STATUS_PATH
    (fun body => _extract_diagnosis_system_status (c.parse body)) tr

/-- C1: if any of the four page fetch/extract steps of `async_fetch_all`
raises, the whole call raises: the result is an error carrying no
mapping at all, so no partial snapshot with keys from earlier pages
reaches the caller. -/
theorem C1_fetch_all_atomicity (c : Client)
    (h : (∃ e, (async_scrape_info_system c []).1 = .error e) ∨
      (∃ e, (async_scrape_info_heatpump c []).1 = .error e) ∨
      (∃ e, (async_scrape_diagnosis_heat_pump_status c []).1 = .error e) ∨
      (∃ e, (async_scrape_diagnosis_system_status c []).1 = .error e)) :
    ∃ e, (async_fetch_all c []).1 = .error e := by
  rcases h1 : async_scrape_info_system c [] with ⟨r1, t1⟩
  cases r1 with
  | error e => exact ⟨e, by simp [async_fetch_all, mBind, h1]⟩
  | ok d1 =>
    rcases h2 : async_scrape_info_heatpump c t1 with ⟨r2, t2⟩
    cases r2 with
    | error e => exact ⟨e, by simp [async_fetch_all, mBind, h1, h2]⟩
    | ok d2 =>
      rcases h3 : async_scrape_diagnosis_heat_pump_status c t2 with ⟨r3, t3⟩
      cases r3 with
      | error e => exact ⟨e, by simp [async_fetch_all, mBind, h1, h2, h3]⟩
      | ok d3 =>
        rcases h4 : async_scrape_diagnosis_system_status c t3 with ⟨r4, t4⟩
        cases r4 with
        | error e =>
          exact ⟨e, by simp [async_fetch_all, mBind, h1, h2, h3, h4]⟩
        | ok d4 =>
          exfalso
          rcases h with h | h | h | h
          · obtain ⟨e, he⟩ := h
            rw [show (async_scrape_info_system c []).1 = .ok d1 by rw [h1]]
              at he
            exact Except.noConfusion he
          · obtain ⟨e, he⟩ := h
            rw [scrape2_fst_indep c [] t1,
              show (async_scrape_info_heatpump c t1).1 = .ok d2 by rw [h2]]
              at he
            exact Except.noConfusion he
          · obtain ⟨e, he⟩ := h
            rw [scrape3_fst_indep c [] t2,
              show (async_scrape_diagnosis_heat_pump_status c t2).1 = .ok d3
                by rw [h3]] at he
            exact Except.noConfusion he
          · obtain ⟨e, he⟩ := h
            rw [scrape4_fst_indep c [] t3,
              show (async_scrape_diagnosis_system_status c t3).1 = .ok d4
                by rw [h4]] at he
            exact Except.noConfusion he

/-- A client whose device times out on the info/heat-pump page (the
second fetch of `async_fetch_all`) and answers 200 with an empty page
everywhere else. -/
def clientTimeoutHP : Client :=
  ⟨"isg.local",
   fun path =>
     if path = INFO_HEATPUMP_PATH then .raisesTimeout else .response 200 "",
   fun _ => ⟨[], [], ""⟩⟩

theorem C1_fetch_all_atomicity_witness :
    ∃ e, (async_fetch_all clientTimeoutHP []).1 = .error e :=
  C1_fetch_all_atomicity clientTimeoutHP
    (Or.inr (Or.inl ⟨⟨.scrapingClientCommError,
      "Timeout error fetching information - ", some .timeoutError⟩,
      by decide⟩))

/-- The keys `_extract_info_system` can populate. -/
def infoSystemKeys : List String :=
  [ROOM_TEMPERATURE_KEY, OUTSIDE_TEMPERATURE_KEY, ROOM_HUMIDITY_KEY,
   FLOW_TEMPERATURE_KEY, TARGET_FLOW_TEMPERATURE_KEY]

/-- The keys `_extract_info_heatpump` can populate. -/
def infoHeatpumpKeys : List String :=
  [HEATING_KEY, TOTAL_HEATING_KEY, POWER_CONSUMPTION_KEY,
   TOTAL_POWER_CONSUMPTION_KEY, COMPRESSOR_STARTS_KEY]

/-- The keys `_extract_diagnosis_heat_pump_status` can populate. -/
def heatPumpStatusKeys : List String :=
  [AUXILIARY_HEATER_STATUS_KEY, BOOSTER_HEATER_1_STATUS_KEY,
   BOOSTER_HEATER_2_STATUS_KEY, COMPRESSOR_STATUS_KEY]

/-- The keys `_extract_diagnosis_system_status` can populate. -/
def systemStatusKeys : List String := [DEFROST_STATUS_KEY]

theorem keys_after_id {d d' : Dict} {S : List String}
    (h : (Except.ok d : Except PyExc Dict) = .ok d') :
    ∀ k, k ∈ dictKeys d' → k ∈ dictKeys d ∨ k ∈ S := by
  intro k hk
  injection h with h
  subst h
  exact Or.inl hk

theorem keys_after_set {d d' : Dict} {key : String} {v : Val} {S : List String}
    (h : (Except.ok (dictSet d key v) : Except PyExc Dict) = .ok d')
    (hkey : key ∈ S) :
    ∀ k, k ∈ dictKeys d' → k ∈ dictKeys d ∨ k ∈ S := by
  intro k hk
  injection h with h
  subst h
  rcases dictSet_keys_sub d key v k hk with h' | h'
  · exact Or.inl h'
  · right; rw [h']; exact hkey

theorem keys_after_set2 {d d' : Dict} {k1 k2 : String} {v1 v2 : Val}
    {S : List String}
    (h : (Except.ok (dictSet (dictSet d k1 v1) k2 v2) :
      Except PyExc Dict) = .ok d')
    (h1 : k1 ∈ S) (h2 : k2 ∈ S) :
    ∀ k, k ∈ dictKeys d' → k ∈ dictKeys d ∨ k ∈ S := by
  intro k hk
  injection h with h
  subst h
  rcases dictSet_keys_sub _ k2 v2 k hk with hx | hx
  · rcases dictSet_keys_sub _ k1 v1 k hx with hy | hy
    · exact Or.inl hy
    · right; rw [hy]; exact h1
  · right; rw [hx]; exact h2

theorem keys_after_set4 {d d' : Dict} {k1 k2 k3 k4 : String}
    {v1 v2 v3 v4 : Val} {S : List String}
    (h : (Except.ok
        (dictSet (dictSet (dictSet (dictSet d k1 v1) k2 v2) k3 v3) k4 v4) :
      Except PyExc Dict) = .ok d')
    (h1 : k1 ∈ S) (h2 : k2 ∈ S) (h3 : k3 ∈ S) (h4 : k4 ∈ S) :
    ∀ k, k ∈ dictKeys d' → k ∈ dictKeys d ∨ k ∈ S := by
  intro k hk
  injection h with h
  subst h
  rcases dictSet_keys_sub _ k4 v4 k hk with hx | hx
  · rcases dictSet_keys_sub _ k3 v3 k hx with hy | hy
    · rcases dictSet_keys_sub _ k2 v2 k hy with hz | hz
      · rcases dictSet_keys_sub _ k1 v1 k hz with hw | hw
        · exact Or.inl hw
        · right; rw [hw]; exact h1
      · right; rw [hz]; exact h2
    · right; rw [hy]; exact h3
  · right; rw [hx]; exact h4

theorem info_system_row_keys (lang : String) (d : Dict) (r : TRow) (d' : Dict)
    (h : info_system_row lang d r = .ok d') :
    ∀ k, k ∈ dictKeys d' → k ∈ dictKeys d ∨ k ∈ infoSystemKeys := by
  unfold info_system_row at h
  simp only [bind, Except.bind, pure, Except.pure] at h
  repeat' split at h
  all_goals
    first
    | exact Except.noConfusion h
    | exact keys_after_id h
    | exact keys_after_set h (by decide)

theorem info_heatpump_table_keys (lang : String) (d : Dict) (t : HTable)
    (d' : Dict) (h : info_heatpump_table lang d t = .ok d') :
    ∀ k, k ∈ dictKeys d' → k ∈ dictKeys d ∨ k ∈ infoHeatpumpKeys := by
  unfold info_heatpump_table at h
  simp only [bind, Except.bind, pure, Except.pure] at h
  repeat' split at h
  all_goals
    first
    | exact Except.noConfusion h
    | exact keys_after_id h
    | exact keys_after_set h (by decide)
    | exact keys_after_set2 h (by decide) (by decide)

theorem diag_system_status_table_keys (lang : String) (d : Dict) (t : HTable)
    (d' : Dict) (h : diag_system_status_table lang d t = .ok d') :
    ∀ k, k ∈ dictKeys d' → k ∈ dictKeys d ∨ k ∈ systemStatusKeys := by
  unfold diag_system_status_table at h
  simp only [bind, Except.bind, pure, Except.pure] at h
  repeat' split at h
  all_goals
    first
    | exact Except.noConfusion h
    | exact keys_after_id h
    | exact keys_after_set h (by decide)

theorem diag_heat_pump_status_table_keys (lang : String) (d : Dict)
    (t : HTable) (d' : Dict)
    (h : diag_heat_pump_status_table lang d t = .ok d') :
    ∀ k, k ∈ dictKeys d' → k ∈ dictKeys d ∨ k ∈ heatPumpStatusKeys := by
  unfold diag_heat_pump_status_table at h
  simp only [bind, Except.bind, pure, Except.pure] at h
  repeat' split at h
  all_goals
    first
    | exact Except.noConfusion h
    | exact keys_after_id h
    | exact keys_after_set4 h (by decide) (by decide) (by decide) (by decide)

theorem info_system_rows_keys (lang : String) :
    ∀ (rs : List TRow) (d0 d : Dict), info_system_rows lang d0 rs = .ok d →
      ∀ k, k ∈ dictKeys d → k ∈ dictKeys d0 ∨ k ∈ infoSystemKeys := by
  intro rs
  induction rs with
  | nil =>
    intro d0 d h k hk
    injection h with h
    subst h
    exact Or.inl hk
  | cons r rs ih =>
    intro d0 d h k hk
    cases h1 : info_system_row lang d0 r with
    | error e =>
      simp only [info_system_rows, bind, Except.bind, h1] at h
      exact Except.noConfusion h
    | ok d1 =>
      simp only [info_system_rows, bind, Except.bind, h1] at h
      rcases ih d1 d h k hk with h' | h'
      · exact info_system_row_keys lang d0 r d1 h1 k h'
      · exact Or.inr h'

theorem info_heatpump_tables_keys (lang : String) :
    ∀ (ts : List HTable) (d0 d : Dict),
      info_heatpump_tables lang d0 ts = .ok d →
      ∀ k, k ∈ dictKeys d → k ∈ dictKeys d0 ∨ k ∈ infoHeatpumpKeys := by
  intro ts
  induction ts with
  | nil =>
    intro d0 d h k hk
    injection h with h
    subst h
    exact Or.inl hk
  | cons t ts ih =>
    intro d0 d h k hk
    cases h1 : info_heatpump_table lang d0 t with
    | error e =>
      simp only [info_heatpump_tables, bind, Except.bind, h1] at h
      exact Except.noConfusion h
    | ok d1 =>
      simp only [info_heatpump_tables, bind, Except.bind, h1] at h
      rcases ih d1 d h k hk with h' | h'
      · exact info_heatpump_table_keys lang d0 t d1 h1 k h'
      · exact Or.inr h'

theorem diag_system_status_tables_keys (lang : String) :
    ∀ (ts : List HTable) (d0 d : Dict),
      diag_system_status_tables lang d0 ts = .ok d →
      ∀ k, k ∈ dictKeys d → k ∈ dictKeys d0 ∨ k ∈ systemStatusKeys := by
  intro ts
  induction ts with
  | nil =>
    intro d0 d h k hk
    injection h with h
    subst h
    exact Or.inl hk
  | cons t ts ih =>
    intro d0 d h k hk
    cases h1 : diag_system_status_table lang d0 t with
    | error e =>
      simp only [diag_system_status_tables, bind, Except.bind, h1] at h
      exact Except.noConfusion h
    | ok d1 =>
      simp only [diag_system_status_tables, bind, Except.bind, h1] at h
      rcases ih d1 d h k hk with h' | h'
      · exact diag_system_status_table_keys lang d0 t d1 h1 k h'
      · exact Or.inr h'

theorem diag_heat_pump_status_tables_keys (lang : String) :
    ∀ (ts : List HTable) (d0 d : Dict),
      diag_heat_pump_status_tables lang d0 ts = .ok d →
      ∀ k, k ∈ dictKeys d → k ∈ dictKeys d0 ∨ k ∈ heatPumpStatusKeys := by
  intro ts
  induction ts with
  | nil =>
    intro d0 d h k hk
    injection h with h
    subst h
    exact Or.inl hk
  | cons t ts ih =>
    intro d0 d h k hk
    cases h1 : diag_heat_pump_status_table lang d0 t with
    | error e =>
      simp only [diag_heat_pump_status_tables, bind, Except.bind, h1] at h
      exact Except.noConfusion h
    | ok d1 =>
      simp only [diag_heat_pump_status_tables, bind, Except.bind, h1] at h
      rcases ih d1 d h k hk with h' | h'
      · exact diag_heat_pump_status_table_keys lang d0 t d1 h1 k h'
      · exact Or.inr h'

theorem extract_info_system_keys (p : Page) (d : Dict)
    (h : _extract_info_system p = .ok d) :
    ∀ k, k ∈ dictKeys d → k ∈ infoSystemKeys := by
  intro k hk
  rcases info_system_rows_keys (_extract_language p) p.allRows [] d h k hk
    with h' | h'
  · simp [dictKeys] at h'
  · exact h'

theorem extract_info_heatpump_keys (p : Page) (d : Dict)
    (h : _extract_info_heatpump p = .ok d) :
    ∀ k, k ∈ dictKeys d → k ∈ infoHeatpumpKeys := by
  intro k hk
  rcases info_heatpump_tables_keys (_extract_language p) p.tables [] d h k hk
    with h' | h'
  · simp [dictKeys] at h'
  · exact h'

theorem extract_diag_system_status_keys (p : Page) (d : Dict)
    (h : _extract_diagnosis_system_status p = .ok d) :
    ∀ k, k ∈ dictKeys d → k ∈ systemStatusKeys := by
  intro k hk
  rcases diag_system_status_tables_keys (_extract_language p) p.tables
    [(DEFROST_STATUS_KEY, .obool false)] d h k hk with h' | h'
  · simpa [dictKeys, systemStatusKeys] using h'
  · exact h'

theorem extract_diag_heat_pump_status_keys (p : Page) (d : Dict)
    (h : _extract_diagnosis_heat_pump_status p = .ok d) :
    ∀ k, k ∈ dictKeys d → k ∈ heatPumpStatusKeys := by
  intro k hk
  rcases diag_heat_pump_status_tables_keys (_extract_language p) p.tables
    [(AUXILIARY_HEATER_STATUS_KEY, .obool false),
     (BOOSTER_HEATER_1_STATUS_KEY, .obool false),
     (BOOSTER_HEATER_2_STATUS_KEY, .obool false),
     (COMPRESSOR_STATUS_KEY, .obool false)] d h k hk with h' | h'
  · simpa [dictKeys, heatPumpStatusKeys] using h'
  · exact h'

theorem disjoint_of_all (S T : List String)
    (hd : S.all (fun x => decide (¬ x ∈ T)) = true) :
    ∀ k, k ∈ S → k ∈ T → False := by
  intro k h1 h2
  rw [List.all_eq_true] at hd
  have hx := hd k h1
  rw [decide_eq_true_eq] at hx
  exact hx h2

/-- A client whose device answers 200 with an empty page on every
subpath. -/
def clientOK : Client :=
  ⟨"isg.local", fun _ => .response 200 "", fun _ => ⟨[], [], ""⟩⟩

/-- C8 counterexample: the four pages are fetched in the source order
info/system, info/heat pump, diagnosis/HEAT PUMP status,
diagnosis/SYSTEM status — not in the claimed order with the system-status
page third and the heat-pump-status page fourth. -/
theorem C8_counterexample :
    (async_fetch_all clientOK []).2 =
      [INFO_SYSTEM_PATH, INFO_HEATPUMP_PATH, DIAGNOSIS_HEAT_PUMP_STATUS_PATH,
       DIAGNOSIS_SYSTEM_STATUS_PATH] ∧
    ¬(async_fetch_all clientOK []).2 =
      [INFO_SYSTEM_PATH, INFO_HEATPUMP_PATH, DIAGNOSIS_SYSTEM_STATUS_PATH,
       DIAGNOSIS_HEAT_PUMP_STATUS_PATH] := by decide

/-- C8 (amended): `async_fetch_all` fetches sequentially in the order
info/system, info/heat pump, diagnosis/heat-pump status,
diagnosis/system status, and merges the four extraction results into one
snapshot whose per-page key sets are pairwise disjoint, so no later page
overwrites an earlier page's key. -/
theorem C8_fetch_order_and_disjointness (c : Client) (d : Dict)
    (tr : List String) (h : async_fetch_all c [] = (.ok d, tr)) :
    tr = [INFO_SYSTEM_PATH, INFO_HEATPUMP_PATH,
      DIAGNOSIS_HEAT_PUMP_STATUS_PATH, DIAGNOSIS_SYSTEM_STATUS_PATH] ∧
    ∃ d1 d2 d3 d4,
      (async_scrape_info_system c []).1 = .ok d1 ∧
      (async_scrape_info_heatpump c []).1 = .ok d2 ∧
      (async_scrape_diagnosis_heat_pump_status c []).1 = .ok d3 ∧
      (async_scrape_diagnosis_system_status c []).1 = .ok d4 ∧
      d = dictUpdate (dictUpdate (dictUpdate (dictUpdate [] d1) d2) d3) d4 ∧
      (∀ k, k ∈ dictKeys d1 → k ∈ dictKeys d2 → False) ∧
      (∀ k, k ∈ dictKeys d1 → k ∈ dictKeys d3 → False) ∧
      (∀ k, k ∈ dictKeys d1 → k ∈ dictKeys d4 → False) ∧
      (∀ k, k ∈ dictKeys d2 → k ∈ dictKeys d3 → False) ∧
      (∀ k, k ∈ dictKeys d2 → k ∈ dictKeys d4 → False) ∧
      (∀ k, k ∈ dictKeys d3 → k ∈ dictKeys d4 → False) := by
  rcases h1 : async_scrape_info_system c [] with ⟨r1, t1⟩
  cases r1 with
  | error e => simp [async_fetch_all, mBind, h1] at h
  | ok d1 =>
    rcases h2 : async_scrape_info_heatpump c t1 with ⟨r2, t2⟩
    cases r2 with
    | error e => simp [async_fetch_all, mBind, h1, h2] at h
    | ok d2 =>
      rcases h3 : async_scrape_diagnosis_heat_pump_status c t2 with ⟨r3, t3⟩
      cases r3 with
      | error e => simp [async_fetch_all, mBind, h1, h2, h3] at h
      | ok d3 =>
        rcases h4 : async_scrape_diagnosis_system_status c t3 with ⟨r4, t4⟩
        cases r4 with
        | error e => simp [async_fetch_all, mBind, h1, h2, h3, h4] at h
        | ok d4 =>
          simp only [async_fetch_all, mBind, mPure, h1, h2, h3, h4,
            Prod.mk.injEq, Except.ok.injEq] at h
          obtain ⟨hd, htr⟩ := h
          have ht1 : t1 = [INFO_SYSTEM_PATH] := by
            have hs := scrape1_snd c []
            rw [h1] at hs
            simpa using hs
          have ht2 : t2 = [INFO_SYSTEM_PATH, INFO_HEATPUMP_PATH] := by
            have hs := scrape2_snd c t1
            rw [h2] at hs
            simpa [ht1] using hs
          have ht3 : t3 = [INFO_SYSTEM_PATH, INFO_HEATPUMP_PATH,
              DIAGNOSIS_HEAT_PUMP_STATUS_PATH] := by
            have hs := scrape3_snd c t2
            rw [h3] at hs
            simpa [ht2] using hs
          have ht4 : t4 = [INFO_SYSTEM_PATH, INFO_HEATPUMP_PATH,
              DIAGNOSIS_HEAT_PUMP_STATUS_PATH,
              DIAGNOSIS_SYSTEM_STATUS_PATH] := by
            have hs := scrape4_snd c t3
            rw [h4] at hs
            simpa [ht3] using hs
          have hf1 : (async_scrape_info_system c []).1 = .ok d1 := by rw [h1]
          have hf2 : (async_scrape_info_heatpump c []).1 = .ok d2 := by
            rw [scrape2_fst_indep c [] t1, h2]
          have hf3 :
              (async_scrape_diagnosis_heat_pump_status c []).1 = .ok d3 := by
            rw [scrape3_fst_indep c [] t2, h3]
          have hf4 :
              (async_scrape_diagnosis_system_status c []).1 = .ok d4 := by
            rw [scrape4_fst_indep c [] t3, h4]
          have hsub1 : ∀ k, k ∈ dictKeys d1 → k ∈ infoSystemKeys := by
            obtain ⟨body, _, he⟩ := scrape_shape_ok c.host c.dev
              INFO_SYSTEM_PATH (fun b => _extract_info_system (c.parse b))
              [] d1 hf1
            exact extract_info_system_keys (c.parse body) d1 he
          have hsub2 : ∀ k, k ∈ dictKeys d2 → k ∈ infoHeatpumpKeys := by
            obtain ⟨body, _, he⟩ := scrape_shape_ok c.host c.dev
              INFO_HEATPUMP_PATH (fun b => _extract_info_heatpump (c.parse b))
              [] d2 hf2
            exact extract_info_heatpump_keys (c.parse body) d2 he
          have hsub3 : ∀ k, k ∈ dictKeys d3 → k ∈ heatPumpStatusKeys := by
            obtain ⟨body, _, he⟩ := scrape_shape_ok c.host c.dev
              DIAGNOSIS_HEAT_PUMP_STATUS_PATH
              (fun b => _extract_diagnosis_heat_pump_status (c.parse b))
              [] d3 hf3
            exact extract_diag_heat_pump_status_keys (c.parse body) d3 he
          have hsub4 : ∀ k, k ∈ dictKeys d4 → k ∈ systemStatusKeys := by
            obtain ⟨body, _, he⟩ := scrape_shape_ok c.host c.dev
              DIAGNOSIS_SYSTEM_STATUS_PATH
              (fun b => _extract_diagnosis_system_status (c.parse b))
              [] d4 hf4
            exact extract_diag_system_status_keys (c.parse body) d4 he
          refine ⟨by rw [← htr, ht4], d1, d2, d3, d4, rfl, hf2, hf3, hf4,
            hd.symm, ?_, ?_, ?_, ?_, ?_, ?_⟩
          · exact fun k hk1 hk2 =>
              disjoint_of_all infoSystemKeys infoHeatpumpKeys (by decide) k
                (hsub1 k hk1) (hsub2 k hk2)
          · exact fun k hk1 hk2 =>
              disjoint_of_all infoSystemKeys heatPumpStatusKeys (by decide) k
                (hsub1 k hk1) (hsub3 k hk2)
          · exact fun k hk1 hk2 =>
              disjoint_of_all infoSystemKeys systemStatusKeys (by decide) k
                (hsub1 k hk1) (hsub4 k hk2)
          · exact fun k hk1 hk2 =>
              disjoint_of_all infoHeatpumpKeys heatPumpStatusKeys (by decide) k
                (hsub2 k hk1) (hsub3 k hk2)
          · exact fun k hk1 hk2 =>
              disjoint_of_all infoHeatpumpKeys systemStatusKeys (by decide) k
                (hsub2 k hk1) (hsub4 k hk2)
          · exact fun k hk1 hk2 =>
              disjoint_of_all heatPumpStatusKeys systemStatusKeys (by decide) k
                (hsub3 k hk1) (hsub4 k hk2)

/-- The snapshot `async_fetch_all` produces for `clientOK`. -/
def clientOKDict : Dict :=
  [(AUXILIARY_HEATER_STATUS_KEY, .obool false),
   (BOOSTER_HEATER_1_STATUS_KEY, .obool false),
   (BOOSTER_HEATER_2_STATUS_KEY, .obool false),
   (COMPRESSOR_STATUS_KEY, .obool false),
   (DEFROST_STATUS_KEY, .obool false)]

theorem C8_fetch_order_and_disjointness_witness :
    ∃ d tr, async_fetch_all clientOK [] = (.ok d, tr) ∧
      tr = [INFO_SYSTEM_PATH, INFO_HEATPUMP_PATH,
        DIAGNOSIS_HEAT_PUMP_STATUS_PATH, DIAGNOSIS_SYSTEM_STATUS_PATH] :=
  ⟨clientOKDict,
   [INFO_SYSTEM_PATH, INFO_HEATPUMP_PATH, DIAGNOSIS_HEAT_PUMP_STATUS_PATH,
    DIAGNOSIS_SYSTEM_STATUS_PATH],
   by decide,
   (C8_fetch_order_and_disjointness clientOK clientOKDict
     [INFO_SYSTEM_PATH, INFO_HEATPUMP_PATH, DIAGNOSIS_HEAT_PUMP_STATUS_PATH,
      DIAGNOSIS_SYSTEM_STATUS_PATH] (by decide)).1⟩
